import Mathlib

/-!
# dbconnector: tenant routing, transaction lifecycle and error conversion

A shallow embedding of `connector.go`, `error_codes.go`,
`pgsql_connector/pgsql.go`, `pgsql_connector/error_converter.go`,
`crdb_connector/crdb.go` and the simple tenant provider of
`config/config.go`.

Conventions of the embedding

* A Go value of interface type `error` is an `Option`: `none` is `nil`.
* A Go multi-value return `(v, err)` is a pair of `Option`s.
* Calls into the SQL driver (pgx) are answered by a scripted driver value
  (`Driver`, `PgxConn`, `PgxTx`); every call that reaches the driver is
  recorded in a trace of `Event`s, returned next to the result.
* A run-time panic (index out of range, nil pointer dereference) is the
  `Panics.panics` result.
* `pgErrorConverter.ConvertError` calls itself; it is embedded with a fuel
  argument, and `none` means that the call has not returned within the fuel.
* The tenant config builder hands out a pointer to its own struct; the
  builder code is embedded over a heap of cells (`Heap`, `Ptr`).
* The retry helper of the cockroach-go library is a parameter (`ExecuteTx`).
-/

namespace dbconnector

/-! ## connector.go -/

/-- The `tenantConfigImpl` struct (and the test double `mockTenantConfig`,
which has the same three fields). -/
structure TenantConfig where
  id : String
  name : String
  url : String
deriving DecidableEq, Repr

/-- TenantID returns the tenant id. -/
def TenantConfig.TenantID (c : TenantConfig) : String := c.id

/-- TenantName returns the tenant name. -/
def TenantConfig.TenantName (c : TenantConfig) : String := c.name

/-- DatabaseURL returns the database url. -/
def TenantConfig.DatabaseURL (c : TenantConfig) : String := c.url

/-- A dynamic value passed as a query argument (`interface{}`). -/
inductive Arg where
  | int (n : Int)
  | text (s : String)
  | null
deriving DecidableEq, Repr

/-- A non-nil Go `error` value as the connector can tell them apart: the
driver's structured database error `*pgconn.PgError`, or a value of any
other dynamic type (of which only the `Error()` text is observable). -/
inductive GoError where
  | pgError (Severity Code Message : String)
  | other (text : String)
deriving DecidableEq, Repr

/-- The `Error()` method. For `*pgconn.PgError` the driver renders
`Severity: Message (SQLSTATE Code)`. -/
def GoError.Error : GoError → String
  | .pgError s c m => s ++ ": " ++ m ++ " (SQLSTATE " ++ c ++ ")"
  | .other t => t

/-- The `TenantProvider` interface, as a scripted collaborator:
`loadResults n` is what the call number `n` of `LoadTenants` returns, and
`loadCalls` counts the calls made so far. -/
structure TenantProvider where
  configureResult : Option GoError
  loadResults : Nat → Except GoError (List TenantConfig)
  loadCalls : Nat

/-- Configure configures the tenant provider. -/
def TenantProvider.Configure (p : TenantProvider) : Option GoError :=
  p.configureResult

/-- LoadTenants loads the tenants; the provider advances to its next answer. -/
def TenantProvider.LoadTenants (p : TenantProvider) :
    Except GoError (List TenantConfig) × TenantProvider :=
  (p.loadResults p.loadCalls, TenantProvider.mk p.configureResult p.loadResults (p.loadCalls + 1))

/-! ## error_codes.go -/

def ModuleCode : String := "dbconnector"

def ErrCodeConnectionFailed : String := ModuleCode ++ ".002"
def ErrCodeTenantNotFound : String := ModuleCode ++ ".003"
def ErrCodeCannotBeginTx : String := ModuleCode ++ ".005"
def ErrCodeCannotCommitTx : String := ModuleCode ++ ".006"
def ErrCodeCannotRollbackTx : String := ModuleCode ++ ".007"
def ErrCodeNotSupported : String := ModuleCode ++ ".008"
def ErrCodeQueryFailed : String := ModuleCode ++ ".009"
def ErrCodeCloseFailed : String := ModuleCode ++ ".010"
def ErrCodeGenericDBError : String := ModuleCode ++ ".011"

/-- TenantErrorDetail carries the tenant id. -/
structure TenantErrorDetail where
  TenantID : String
deriving DecidableEq, Repr

/-- DatabaseErrorDetail embeds TenantErrorDetail. The zero value of a field
left out of a Go composite literal is the empty string. -/
structure DatabaseErrorDetail extends TenantErrorDetail where
  DatabaseErrorCode : String
  DatabaseError : String
deriving DecidableEq, Repr

/-- QueryErrorDetail embeds DatabaseErrorDetail and adds the sql text and
the arguments. -/
structure QueryErrorDetail extends DatabaseErrorDetail where
  QueryScript : String
  QueryArgs : List Arg
deriving DecidableEq, Repr

mutual
/-- The detail value attached to a coded error: one of the four detail
structs of `error_codes.go`. `rollbackError` is `RollbackErrorDetail`,
whose two fields are coded errors themselves. -/
inductive Detail where
  | tenantError (d : TenantErrorDetail)
  | databaseError (d : DatabaseErrorDetail)
  | queryError (d : QueryErrorDetail)
  | rollbackError (DatabaseError : EX) (OriginalError : EX)
/-- A coded error `errorex.EX`: a code and a detail value. -/
inductive EX where
  | mk (code : String) (detail : Detail)
end

/-- Code returns the code of a coded error. -/
def EX.Code : EX → String
  | .mk code _ => code

/-- Detail returns the detail value of a coded error. -/
def EX.Detail : EX → Detail
  | .mk _ detail => detail

namespace errorex

/-- The constructor `errorex.New(code, detail)` of the errorex library. -/
def New (code : String) (detail : Detail) : EX := EX.mk code detail

end errorex

/-! ## The scripted driver -/

/-- The `pgconn.CommandTag` of an executed statement. -/
structure CommandTag where
  rowsAffected : Int
deriving DecidableEq, Repr

/-- RowsAffected returns the row count of the command tag. -/
def CommandTag.RowsAffected (t : CommandTag) : Int := t.rowsAffected

/-- The rows handle `pgx.Rows` returned by a query: the rows still to be read. -/
structure PgxRows where
  rows : List (List Arg)
deriving DecidableEq, Repr

/-- A native transaction handle `pgx.Tx`: what each of its methods answers. -/
structure PgxTx where
  commitResult : Option GoError
  rollbackResult : Option GoError
  execResult : String → List Arg → Except GoError CommandTag
  queryResult : String → List Arg → Except GoError PgxRows

/-- A native connection `*pgx.Conn`: what each of its methods answers. -/
structure PgxConn where
  beginResult : Except GoError PgxTx
  queryResult : String → List Arg → Except GoError PgxRows
  closeResult : Option GoError

/-- The driver entry point `pgx.Connect(ctx, url)`. -/
structure Driver where
  pgxConnect : String → Except GoError PgxConn

/-- A call that reached the driver. -/
inductive Event where
  | dial (url : String)
  | begin
  | callFn
  | commit
  | rollback
  | exec (sql : String) (args : List Arg)
  | query (sql : String) (args : List Arg)
  | close
deriving DecidableEq, Repr

/-- The result of a Go call that either returns or panics at run time. -/
inductive Panics (α : Type) where
  | returns (a : α)
  | panics (reason : String)

namespace pgsql_connector

/-! ## pgsql_connector/pgsql.go: the connector -/

/-- A Go `map[string]int`. -/
abbrev IndexMap := String → Option Nat

/-- The empty map `make(map[string]int)`. -/
def IndexMap.make : IndexMap := fun _ => none

/-- The assignment `m[k] = v`. -/
def IndexMap.set (m : IndexMap) (k : String) (v : Nat) : IndexMap :=
  fun key => if key = k then some v else m key

/-- PgsqlConnector is the struct for the PostgreSQL connector. -/
structure PgsqlConnector where
  tenantProvider : TenantProvider
  tenantsConfig : List TenantConfig
  tenantsConfigIndexMap : IndexMap

/-- PgsqlDatabase is the struct for the PostgreSQL database. Its `connector`
back-pointer is never read by any method and is left out. -/
structure PgsqlDatabase where
  config : TenantConfig
  conn : PgxConn

/-- TenantConfig returns the tenant config. -/
def PgsqlDatabase.TenantConfig (p : PgsqlDatabase) : TenantConfig := p.config

/-- PgxConn returns the pgx connection. -/
def PgsqlDatabase.PgxConn (p : PgsqlDatabase) : PgxConn := p.conn

/-- The loop `for idx, tenantConfig := range tenantsConfig` of `Reload`,
started at index `idx`. -/
def fillIndexMap : Nat → List TenantConfig → IndexMap → IndexMap
  | _, [], m => m
  | idx, tenantConfig :: rest, m =>
    fillIndexMap (idx + 1) rest (m.set tenantConfig.TenantID idx)

/-- Reload reloads the tenants: it returns the connector after the call and
the error. Only the index map is assigned; `tenantsConfig` is not. -/
def PgsqlConnector.Reload (c : PgsqlConnector) : PgsqlConnector × Option GoError :=
  match c.tenantProvider.LoadTenants with
  | (.error err, provider) =>
    (PgsqlConnector.mk provider c.tenantsConfig c.tenantsConfigIndexMap, some err)
  | (.ok tenantsConfig, provider) =>
    (PgsqlConnector.mk provider c.tenantsConfig
      (fillIndexMap 0 tenantsConfig IndexMap.make), none)

/-- NewConnector creates a new database connector. -/
def NewConnector (tenantProvider : TenantProvider) : Option PgsqlConnector × Option GoError :=
  match tenantProvider.Configure with
  | some err => (none, some err)
  | none =>
    match tenantProvider.LoadTenants with
    | (.error err, _) => (none, some err)
    | (.ok tenantsConfig, provider) =>
      let connector := PgsqlConnector.mk provider tenantsConfig IndexMap.make
      match connector.Reload with
      | (_, some err) => (none, some err)
      | (connector, none) => (some connector, none)

/-- The unexported `connect`: dials the database url of the config. -/
def PgsqlConnector.connect (drv : Driver) (_c : PgsqlConnector) (config : TenantConfig) :
    List Event × (Option PgsqlDatabase × Option EX) :=
  let databaseURL := config.DatabaseURL
  match drv.pgxConnect databaseURL with
  | .error err =>
    ([Event.dial databaseURL],
      (none, some (errorex.New ErrCodeConnectionFailed
        (Detail.databaseError (DatabaseErrorDetail.mk (TenantErrorDetail.mk config.TenantID)
          "" err.Error)))))
  | .ok conn =>
    ([Event.dial databaseURL], (some (PgsqlDatabase.mk config conn), none))

/-- Connect connects to the database of a tenant. The slice access
`c.tenantsConfig[tenantIndex]` panics when the index is out of range. -/
def PgsqlConnector.Connect (drv : Driver) (c : PgsqlConnector) (tenantID : String) :
    List Event × Panics (Option PgsqlDatabase × Option EX) :=
  match c.tenantsConfigIndexMap tenantID with
  | none =>
    ([], Panics.returns (none,
      some (errorex.New ErrCodeTenantNotFound (Detail.tenantError (TenantErrorDetail.mk tenantID)))))
  | some tenantIndex =>
    match c.tenantsConfig[tenantIndex]? with
    | none => ([], Panics.panics "index out of range")
    | some tenantConfig =>
      match c.connect drv tenantConfig with
      | (trace, (_, some err)) => (trace, Panics.returns (none, some err))
      | (trace, (database, none)) => (trace, Panics.returns (database, none))

/-! ## pgsql_connector/error_converter.go -/

/-- The struct `pgErrorConverter`. The embedded `errorex.BaseErrorConverter`
has no field that `ConvertError` or `pgErrorDetail` reads. -/
structure pgErrorConverter where
  errCode : String
  tenantID : String
deriving DecidableEq, Repr

/-- The function `pgErrorDetail`: the type assertion `err.(*pgconn.PgError)`
succeeds exactly on a structured database error (and fails on `nil`). -/
def pgErrorDetail (c : pgErrorConverter) (err : Option GoError) : DatabaseErrorDetail × Bool :=
  match err with
  | some (GoError.pgError _ code message) =>
    (DatabaseErrorDetail.mk (TenantErrorDetail.mk c.tenantID) code message, true)
  | _ => (DatabaseErrorDetail.mk (TenantErrorDetail.mk "") "" "", false)

/-- The method `ConvertError` of `*pgErrorConverter`. When `pgErrorDetail`
does not recognise the error, the method calls `c.ConvertError(err)`: the
selector resolves to this very method (declared on the outer struct, it
hides the one promoted from the embedded base converter), with the same
receiver and the same argument. Each call spends one unit of fuel; `none`
says that no value has been returned within the fuel. -/
def pgErrorConverter.ConvertError : Nat → pgErrorConverter → Option GoError → Option EX
  | 0, _, _ => none
  | fuel + 1, c, err =>
    match pgErrorDetail c err with
    | (detail, true) => some (errorex.New c.errCode (Detail.databaseError detail))
    | (_, false) => pgErrorConverter.ConvertError fuel c err

/-- The function `newPGErrorConverter`. -/
def newPGErrorConverter (errorCode tenantID : String) : pgErrorConverter :=
  pgErrorConverter.mk errorCode tenantID

/-- The converter chain returned by `errorex.BuildErrorConverterChain`. -/
structure ErrorConverterChain where
  first : pgErrorConverter
deriving DecidableEq, Repr

/-- Modelled from the spec: `errorex.BuildErrorConverterChain` belongs to the
library github.com/fkmatsuda/errorex, which is not among the sources. The
spec says that converters are composable into a chain in which the first
converter that recognises the native error wins; both call sites build a
chain of one converter, so the chain hands the error to that converter. -/
def BuildErrorConverterChain (c : pgErrorConverter) : ErrorConverterChain :=
  ErrorConverterChain.mk c

/-- Modelled from the spec: `ConvertError` of a chain built by
`errorex.BuildErrorConverterChain` (library code, not among the sources):
the error is given to the first converter of the chain. For an error that
is not nil the chain has no other way to learn whether its converter
recognises it; what the library does with a nil error the sources do not
show. -/
def ErrorConverterChain.ConvertError (fuel : Nat) (ch : ErrorConverterChain)
    (err : Option GoError) : Option EX :=
  ch.first.ConvertError fuel err

/-- The function `NewCannotCommitTxErrorConverter`. -/
def NewCannotCommitTxErrorConverter (tenantID : String) : ErrorConverterChain :=
  BuildErrorConverterChain (newPGErrorConverter ErrCodeCannotCommitTx tenantID)

/-- The function `NewGenericDbErrorConverter`. -/
def NewGenericDbErrorConverter (tenantID : String) : ErrorConverterChain :=
  BuildErrorConverterChain (newPGErrorConverter ErrCodeGenericDBError tenantID)

/-! ## pgsql_connector/pgsql.go: database, result and transaction -/

/-- PgsqlResult is the struct for the PostgreSQL result. Its `database`
field is a pointer and may be nil. -/
structure PgsqlResult where
  database : Option PgsqlDatabase
  result : CommandTag

/-- LastInsertId returns the last insert id. It reads the tenant id through
`p.database`; `TenantConfig()` on a nil `*PgsqlDatabase` dereferences the
nil pointer and panics. -/
def PgsqlResult.LastInsertId (p : PgsqlResult) : Panics (Int × Option EX) :=
  match p.database with
  | none => Panics.panics "invalid memory address or nil pointer dereference"
  | some database =>
    Panics.returns (0, some (errorex.New ErrCodeNotSupported
      (Detail.tenantError (TenantErrorDetail.mk database.TenantConfig.TenantID))))

/-- RowsAffected returns the number of rows affected. -/
def PgsqlResult.RowsAffected (p : PgsqlResult) : Int × Option EX :=
  (p.result.RowsAffected, none)

/-- PgsqlTransaction is the struct for the PostgreSQL transaction. It is
only built by `CreateTx`, which sets `database` to its receiver. -/
structure PgsqlTransaction where
  database : PgsqlDatabase
  tx : PgxTx

/-- TransactionFN is the transaction function: it is handed the transaction
and returns an error or nil. -/
abbrev TransactionFN := PgsqlTransaction → Option GoError

/-- CreateTx wraps a native transaction handle. -/
def PgsqlDatabase.CreateTx (p : PgsqlDatabase) (pgxTx : PgxTx) : PgsqlTransaction :=
  PgsqlTransaction.mk p pgxTx

/-- TenantConfig returns the tenant config of the owning database. -/
def PgsqlTransaction.TenantConfig (p : PgsqlTransaction) : TenantConfig :=
  p.database.TenantConfig

/-- Exec executes a statement on the native transaction handle. The result
literal sets only the `result` field. -/
def PgsqlTransaction.Exec (p : PgsqlTransaction) (query : String) (args : List Arg) :
    List Event × (Option PgsqlResult × Option GoError) :=
  match p.tx.execResult query args with
  | .error err => ([Event.exec query args], (none, some err))
  | .ok result => ([Event.exec query args], (some (PgsqlResult.mk none result), none))

/-- CommitOrRollback commits or rolls back the transaction based on the
error. The result is `none` when a conversion has not returned within the
fuel; the trace holds the driver calls made up to that point. After the
commit the source tests `err` (nil on this branch), not `errCommit`. -/
def PgsqlTransaction.CommitOrRollback (fuel : Nat) (p : PgsqlTransaction)
    (err : Option GoError) : List Event × Option (Option EX) :=
  let errorConverter := NewCannotCommitTxErrorConverter p.database.TenantConfig.TenantID
  if err.isSome then
    match errorConverter.ConvertError fuel err with
    | none => ([], none)
    | some errEX =>
      match p.tx.rollbackResult with
      | some errRollback =>
        match errorConverter.ConvertError fuel (some errRollback) with
        | none => ([Event.rollback], none)
        | some converted =>
          ([Event.rollback],
            some (some (errorex.New ErrCodeCannotRollbackTx (Detail.rollbackError converted errEX))))
      | none => ([Event.rollback], some (some errEX))
  else
    let errCommit := p.tx.commitResult
    if err.isSome then
      match errorConverter.ConvertError fuel errCommit with
      | none => ([Event.commit], none)
      | some converted => ([Event.commit], some (some converted))
    else ([Event.commit], some none)

/-- The struct `pgsqlRows`, wrapping the native rows handle. -/
structure pgsqlRows where
  rows : PgxRows
deriving DecidableEq, Repr

/-- Close closes the connection of the database. -/
def PgsqlDatabase.Close (p : PgsqlDatabase) : List Event × Option EX :=
  match p.conn.closeResult with
  | none => ([Event.close], none)
  | some err =>
    ([Event.close],
      some (errorex.New ErrCodeCloseFailed
        (Detail.databaseError (DatabaseErrorDetail.mk
          (TenantErrorDetail.mk p.TenantConfig.TenantID) "" err.Error))))

/-- Query executes a query on the connection of the database. -/
def PgsqlDatabase.Query (p : PgsqlDatabase) (query : String) (args : List Arg) :
    List Event × (Option pgsqlRows × Option EX) :=
  match p.conn.queryResult query args with
  | .error err =>
    ([Event.query query args],
      (none, some (errorex.New ErrCodeQueryFailed
        (Detail.queryError (QueryErrorDetail.mk
          (DatabaseErrorDetail.mk (TenantErrorDetail.mk p.TenantConfig.TenantID) "" err.Error)
          query args)))))
  | .ok rows => ([Event.query query args], (some (pgsqlRows.mk rows), none))

/-- Query executes a query on the native transaction handle. -/
def PgsqlTransaction.Query (p : PgsqlTransaction) (query : String) (args : List Arg) :
    List Event × (Option pgsqlRows × Option EX) :=
  match p.tx.queryResult query args with
  | .error err =>
    ([Event.query query args],
      (none, some (errorex.New ErrCodeQueryFailed
        (Detail.queryError (QueryErrorDetail.mk
          (DatabaseErrorDetail.mk (TenantErrorDetail.mk p.database.TenantConfig.TenantID) ""
            err.Error)
          query args)))))
  | .ok pgRow => ([Event.query query args], (some (pgsqlRows.mk pgRow), none))

/-- RunInTransaction runs a function in a transaction. -/
def PgsqlDatabase.RunInTransaction (fuel : Nat) (p : PgsqlDatabase) (fn : TransactionFN) :
    List Event × Option (Option EX) :=
  match p.conn.beginResult with
  | .error err =>
    ([Event.begin],
      some (some (errorex.New ErrCodeCannotBeginTx
        (Detail.databaseError (DatabaseErrorDetail.mk
          (TenantErrorDetail.mk p.TenantConfig.TenantID) "" err.Error)))))
  | .ok pgxTx =>
    let tx := p.CreateTx pgxTx
    let err := fn tx
    let (trace, result) := tx.CommitOrRollback fuel err
    (Event.begin :: Event.callFn :: trace, result)

end pgsql_connector

/-! ## crdb_connector/crdb.go -/

namespace crdb_connector

open pgsql_connector

/-- CrdbConnector is the struct for the CockroachDB connector: it embeds
`PgsqlConnector`. -/
structure CrdbConnector extends PgsqlConnector

/-- NewConnector creates a CockroachDB connector: it builds the generic
connector and copies it into the new struct. The assertion
`connector.(*pgsql_connector.PgsqlConnector)` panics on a nil interface
value. -/
def NewConnector (tenantProvider : TenantProvider) :
    Panics (Option CrdbConnector × Option GoError) :=
  match pgsql_connector.NewConnector tenantProvider with
  | (_, some err) => Panics.returns (none, some err)
  | (none, none) => Panics.panics "interface conversion: interface is nil"
  | (some connector, none) => Panics.returns (some (CrdbConnector.mk connector), none)

/-- CrdbDatabase is the struct for the CockroachDB database: it embeds
`PgsqlDatabase`, whose methods `TenantConfig`, `PgxConn` and `CreateTx` it
inherits. -/
structure CrdbDatabase extends PgsqlDatabase

/-- Connect overrides `PgsqlConnector.Connect`: it delegates to the embedded
connector and wraps the database. The assertion
`database.(*pgsql_connector.PgsqlDatabase)` panics on a nil interface
value. -/
def CrdbConnector.Connect (drv : Driver) (c : CrdbConnector) (tenantID : String) :
    List Event × Panics (Option CrdbDatabase × Option EX) :=
  match c.toPgsqlConnector.Connect drv tenantID with
  | (trace, Panics.panics reason) => (trace, Panics.panics reason)
  | (trace, Panics.returns (_, some err)) => (trace, Panics.returns (none, some err))
  | (trace, Panics.returns (none, none)) =>
    (trace, Panics.panics "interface conversion: interface is nil")
  | (trace, Panics.returns (some database, none)) =>
    (trace, Panics.returns (some (CrdbDatabase.mk database), none))

/-- The retry helper `crdbpgx.ExecuteTx(ctx, conn, txOptions, fn)` of the
cockroach-go library, which is not among the sources, taken as a parameter:
given the connection and the closure it runs in a transaction, the error
it finally returns. -/
abbrev ExecuteTx := PgxConn → (PgxTx → Option GoError) → Option GoError

/-- RunInTransaction overrides `PgsqlDatabase.RunInTransaction`. It converts
the outcome of the retry helper whatever it is, nil included. The result
is `none` when the conversion has not returned within the fuel. -/
def CrdbDatabase.RunInTransaction (fuel : Nat) (executeTx : ExecuteTx) (d : CrdbDatabase)
    (fn : TransactionFN) : Option (Option EX) :=
  let errorConverter := NewCannotCommitTxErrorConverter d.TenantConfig.TenantID
  let err := executeTx d.PgxConn (fun tx =>
    let dbTx := d.CreateTx tx
    let txErr := fn dbTx
    txErr)
  match errorConverter.ConvertError fuel err with
  | none => none
  | some converted => some (some converted)

end crdb_connector

/-! ## connector.go: the tenant config builder -/

/-- A pointer to a heap cell. -/
abbrev Ptr := Nat

/-- The heap of the builder code. A `tenantConfigBuilder` is one cell: its
only field is the struct `tenantConfig`, of which `TenantConfig` is the
content. A `TenantConfig` interface value handed out by a builder is a
pointer to a cell. `next` is the first address not yet allocated. -/
structure Heap where
  cells : Ptr → TenantConfig
  next : Ptr

/-- A store through a pointer. -/
def Heap.write (h : Heap) (p : Ptr) (v : TenantConfig) : Heap :=
  Heap.mk (fun q => if q = p then v else h.cells q) h.next

/-- TenantID read through a `TenantConfig` pointer. -/
def Heap.TenantID (h : Heap) (c : Ptr) : String := (h.cells c).TenantID

/-- TenantName read through a `TenantConfig` pointer. -/
def Heap.TenantName (h : Heap) (c : Ptr) : String := (h.cells c).TenantName

/-- DatabaseURL read through a `TenantConfig` pointer. -/
def Heap.DatabaseURL (h : Heap) (c : Ptr) : String := (h.cells c).DatabaseURL

/-- NewTenantConfigBuilder allocates a builder whose config is the zero
value `tenantConfigImpl{}`. -/
def NewTenantConfigBuilder (h : Heap) : Ptr × Heap :=
  (h.next, Heap.mk (fun q => if q = h.next then TenantConfig.mk "" "" "" else h.cells q)
    (h.next + 1))

/-- WithTenantID stores the id in the config of the builder and returns the
builder. -/
def tenantConfigBuilder.WithTenantID (h : Heap) (b : Ptr) (id : String) : Ptr × Heap :=
  (b, h.write b (TenantConfig.mk id (h.cells b).name (h.cells b).url))

/-- WithTenantName stores the name in the config of the builder and returns
the builder. -/
def tenantConfigBuilder.WithTenantName (h : Heap) (b : Ptr) (name : String) : Ptr × Heap :=
  (b, h.write b (TenantConfig.mk (h.cells b).id name (h.cells b).url))

/-- WithDatabaseURL stores the url in the config of the builder and returns
the builder. -/
def tenantConfigBuilder.WithDatabaseURL (h : Heap) (b : Ptr) (url : String) : Ptr × Heap :=
  (b, h.write b (TenantConfig.mk (h.cells b).id (h.cells b).name url))

/-- Build returns `&b.tenantConfig`: a pointer to the config held by the
builder itself, not a copy of it. -/
def tenantConfigBuilder.Build (b : Ptr) : Ptr := b

/-- One call of a `With` method on a builder. -/
inductive BuilderCall where
  | WithTenantID (id : String)
  | WithTenantName (name : String)
  | WithDatabaseURL (url : String)
deriving DecidableEq, Repr

/-- The heap after one call on the builder `b`. -/
def BuilderCall.run (h : Heap) (b : Ptr) : BuilderCall → Heap
  | .WithTenantID id => (tenantConfigBuilder.WithTenantID h b id).2
  | .WithTenantName name => (tenantConfigBuilder.WithTenantName h b name).2
  | .WithDatabaseURL url => (tenantConfigBuilder.WithDatabaseURL h b url).2

/-- The heap after a sequence of calls on the builder `b`, first call first. -/
def runCalls (h : Heap) (b : Ptr) : List BuilderCall → Heap
  | [] => h
  | call :: rest => runCalls (call.run h b) b rest

/-- The argument of a call that sets the tenant id. -/
def BuilderCall.idArg : BuilderCall → Option String
  | .WithTenantID id => some id
  | _ => none

/-- The argument of a call that sets the tenant name. -/
def BuilderCall.nameArg : BuilderCall → Option String
  | .WithTenantName name => some name
  | _ => none

/-- The argument of a call that sets the database url. -/
def BuilderCall.urlArg : BuilderCall → Option String
  | .WithDatabaseURL url => some url
  | _ => none

/-- The argument of the last call of a sequence that sets the field picked
by `arg`, or the empty string when no call sets it. -/
def lastArg (arg : BuilderCall → Option String) (calls : List BuilderCall) : String :=
  ((calls.filterMap arg).getLast?).getD ""

/-! ## config/config.go: the simple tenant provider -/

namespace config

/-- The struct `simpleConfigTenantProvider`. -/
structure simpleConfigTenantProvider where
  url : String
  tenantID : String
deriving DecidableEq, Repr

/-- NewSimpleConfigTenantProvider creates a tenant provider with a simple
configuration. -/
def NewSimpleConfigTenantProvider (url : String) (tenantID : String) :
    simpleConfigTenantProvider :=
  simpleConfigTenantProvider.mk url tenantID

/-- Configure implements `dbconnector.TenantProvider`. -/
def simpleConfigTenantProvider.Configure (_p : simpleConfigTenantProvider) : Option GoError :=
  none

/-- LoadTenants implements `dbconnector.TenantProvider`: a new builder, three
`With` calls and `Build`, in a slice of one element. -/
def simpleConfigTenantProvider.LoadTenants (h : Heap) (p : simpleConfigTenantProvider) :
    (List Ptr × Option GoError) × Heap :=
  let (b0, h0) := NewTenantConfigBuilder h
  let (b1, h1) := tenantConfigBuilder.WithTenantID h0 b0 p.tenantID
  let (b2, h2) := tenantConfigBuilder.WithTenantName h1 b1 "__Default"
  let (b3, h3) := tenantConfigBuilder.WithDatabaseURL h2 b2 p.url
  let tenants := [tenantConfigBuilder.Build b3]
  ((tenants, none), h3)

end config

/-! ## error_codes.go: the registered detail shapes -/

/-- The four detail struct types of `error_codes.go`. -/
inductive DetailShape where
  | TenantErrorDetail
  | DatabaseErrorDetail
  | QueryErrorDetail
  | RollbackErrorDetail
deriving DecidableEq, Repr

/-- The struct type of a detail value. -/
def Detail.shape : Detail → DetailShape
  | .tenantError _ => DetailShape.TenantErrorDetail
  | .databaseError _ => DetailShape.DatabaseErrorDetail
  | .queryError _ => DetailShape.QueryErrorDetail
  | .rollbackError _ _ => DetailShape.RollbackErrorDetail

/-- The calls `errorex.RegisterErrorCode(code, message, detail)` of `init()`,
in their order: the code, the message and the type of the detail value. -/
def registeredCodes : List (String × String × DetailShape) :=
  [ (ErrCodeConnectionFailed, "connection failed", DetailShape.DatabaseErrorDetail),
    (ErrCodeTenantNotFound, "tenant not found", DetailShape.TenantErrorDetail),
    (ErrCodeCannotBeginTx, "cannot begin transaction", DetailShape.DatabaseErrorDetail),
    (ErrCodeCannotCommitTx, "cannot commit transaction", DetailShape.DatabaseErrorDetail),
    (ErrCodeCannotRollbackTx, "cannot rollback transaction", DetailShape.RollbackErrorDetail),
    (ErrCodeNotSupported, "not supported", DetailShape.TenantErrorDetail),
    (ErrCodeQueryFailed, "query failed", DetailShape.QueryErrorDetail),
    (ErrCodeCloseFailed, "close failed", DetailShape.DatabaseErrorDetail),
    (ErrCodeGenericDBError, "generic database error", DetailShape.DatabaseErrorDetail) ]

/-- The detail shape registered for a code, if the code is registered. -/
def registeredShape (code : String) : Option DetailShape :=
  match registeredCodes.lookup code with
  | some (_, shape) => some shape
  | none => none

/-- A coded error carries a detail of the shape registered for its code. -/
def EX.HasRegisteredShape (e : EX) : Prop :=
  registeredShape e.Code = some e.Detail.shape

/-- A coded error, and the two coded errors inside its detail when that is a
`RollbackErrorDetail`, carry details of the shapes registered for their
codes. -/
def EX.AllRegistered (e : EX) : Prop :=
  e.HasRegisteredShape ∧
    match e.Detail with
    | .rollbackError databaseError originalError =>
      databaseError.HasRegisteredShape ∧ originalError.HasRegisteredShape
    | _ => True

namespace pgsql_connector

/-! ## pgsql_connector/pgsql.go: the writes of `Reload`, one by one -/

/-- The maps held by the field `tenantsConfigIndexMap` after each insertion
of the loop `for idx, tenantConfig := range tenantsConfig` of `Reload`,
which inserts into the map that the connector already points to. -/
def fillIndexMapStates : Nat → List TenantConfig → IndexMap → List IndexMap
  | _, [], _ => []
  | idx, tenantConfig :: rest, m =>
    m.set tenantConfig.TenantID idx
      :: fillIndexMapStates (idx + 1) rest (m.set tenantConfig.TenantID idx)

/-- The successive states of the connector during `Reload`, one per statement
that writes to it: the assignment `c.tenantsConfigIndexMap = make(...)`,
then each insertion of the loop. When `LoadTenants` fails nothing is
written and the only state is the connector as it was (the provider
apart). No lock is taken anywhere. -/
def PgsqlConnector.ReloadStates (c : PgsqlConnector) : List PgsqlConnector :=
  match c.tenantProvider.LoadTenants with
  | (.error _, provider) =>
    [PgsqlConnector.mk provider c.tenantsConfig c.tenantsConfigIndexMap]
  | (.ok tenantsConfig, provider) =>
    (IndexMap.make :: fillIndexMapStates 0 tenantsConfig IndexMap.make).map
      (fun m => PgsqlConnector.mk provider c.tenantsConfig m)

end pgsql_connector

/-! ## Concrete scenarios -/

namespace scenario

open pgsql_connector

/-- A native transaction on which every call succeeds; a statement affects one row. -/
def okTx : PgxTx :=
  PgxTx.mk none none (fun _ _ => Except.ok (CommandTag.mk 1)) (fun _ _ => Except.ok (PgxRows.mk []))

/-- A native connection on which every call succeeds. -/
def okConn : PgxConn :=
  PgxConn.mk (Except.ok okTx) (fun _ _ => Except.ok (PgxRows.mk [])) none

/-- A driver that reaches every endpoint. -/
def okDriver : Driver := Driver.mk (fun _ => Except.ok okConn)

/-- A provider that answers every `LoadTenants` call with the same sequence. -/
def constantProvider (tenants : List TenantConfig) : TenantProvider :=
  TenantProvider.mk none (fun _ => Except.ok tenants) 0

/-- The tenant of the test suite. -/
def pgtest : TenantConfig :=
  TenantConfig.mk "pgtest" "Test PostgreSQL" "postgres://localhost:5432/pgtest"

/-- The connector that `NewConnector` builds over the single test tenant. -/
def pgtestConnector : PgsqlConnector :=
  PgsqlConnector.mk (TenantProvider.mk none (fun _ => Except.ok [pgtest]) 2) [pgtest]
    (fillIndexMap 0 [pgtest] IndexMap.make)

/-- The database that `Connect` returns for the test tenant. -/
def pgtestDatabase : PgsqlDatabase := PgsqlDatabase.mk pgtest okConn

def tenantA : TenantConfig := TenantConfig.mk "a" "Tenant A" "postgres://host-1/a"

def tenantB : TenantConfig := TenantConfig.mk "b" "Tenant B" "postgres://host-2/b"

/-- A later entry that carries the id of `tenantA` and another endpoint. -/
def tenantA2 : TenantConfig := TenantConfig.mk "a" "Tenant A bis" "postgres://host-3/a"

/-- The connector that `NewConnector` builds over the tenants `a` and `b`. -/
def abConnector : PgsqlConnector :=
  PgsqlConnector.mk (TenantProvider.mk none (fun _ => Except.ok [tenantA, tenantB]) 2)
    [tenantA, tenantB] (fillIndexMap 0 [tenantA, tenantB] IndexMap.make)

def tenantX : TenantConfig := TenantConfig.mk "X" "Tenant X" "postgres://host-x/x"

def tenantY : TenantConfig := TenantConfig.mk "Y" "Tenant Y" "postgres://host-y/y"

/-- A provider whose snapshot is `[X]` for the two calls that `NewConnector`
makes and `[Y]` from then on: X is removed and Y is added. -/
def swapProvider : TenantProvider :=
  TenantProvider.mk none
    (fun n => if n < 2 then Except.ok [tenantX] else Except.ok [tenantY]) 0

/-- The connector that `NewConnector` returns over `swapProvider`. -/
def swapConnector : PgsqlConnector :=
  PgsqlConnector.mk (TenantProvider.mk none swapProvider.loadResults 2) [tenantX]
    (fillIndexMap 0 [tenantX] IndexMap.make)

/-- The connector `swapConnector` after one more `Reload`. -/
def swapConnectorReloaded : PgsqlConnector :=
  PgsqlConnector.mk (TenantProvider.mk none swapProvider.loadResults 3) [tenantX]
    (fillIndexMap 0 [tenantY] IndexMap.make)

/-- The structured database error of an insert into a missing table. -/
def undefinedTable : GoError :=
  GoError.pgError "ERROR" "42P01" "relation error_table does not exist"

/-- The structured database error of a serialization conflict at commit. -/
def serializationFailure : GoError :=
  GoError.pgError "ERROR" "40001" "could not serialize access"

/-- A native transaction whose commit is refused by the server. -/
def commitFailsTx : PgxTx :=
  PgxTx.mk (some serializationFailure) none (fun _ _ => Except.ok (CommandTag.mk 1))
    (fun _ _ => Except.ok (PgxRows.mk []))

/-- A database of the test tenant on which begin succeeds and commit fails. -/
def commitFailsDatabase : PgsqlDatabase :=
  PgsqlDatabase.mk pgtest
    (PgxConn.mk (Except.ok commitFailsTx) (fun _ _ => Except.ok (PgxRows.mk [])) none)

/-- A native transaction whose rollback fails with the driver error
`pgx.ErrTxClosed`, which is not a structured database error. -/
def rollbackFailsTx : PgxTx :=
  PgxTx.mk none (some (GoError.other "tx is closed"))
    (fun _ _ => Except.error undefinedTable) (fun _ _ => Except.ok (PgxRows.mk []))

/-- A transaction function that succeeds. -/
def fnOk : TransactionFN := fun _ => none

/-- A transaction function that returns the error of its failed insert. -/
def fnUndefinedTable : TransactionFN := fun _ => some undefinedTable

/-- A transaction function that returns an application error built with
`errors.New`, as the test suite does for an unexpected row count. -/
def fnPlainError : TransactionFN := fun _ => some (GoError.other "RowsAffected() != 1")

/-- A database of the test tenant on which begin fails. -/
def beginFailsDatabase : PgsqlDatabase :=
  PgsqlDatabase.mk pgtest
    (PgxConn.mk (Except.error (GoError.other "conn closed"))
      (fun _ _ => Except.ok (PgxRows.mk [])) none)

/-- A driver that reaches no endpoint: every dial is refused. -/
def refusingDriver : Driver :=
  Driver.mk (fun _ => Except.error (GoError.other "password authentication failed"))

/-- A native connection whose queries fail with a structured database error. -/
def queryFailsConn : PgxConn :=
  PgxConn.mk (Except.ok okTx) (fun _ _ => Except.error undefinedTable) none

/-- A native transaction whose queries fail with a structured database error. -/
def queryFailsTx : PgxTx :=
  PgxTx.mk none none (fun _ _ => Except.ok (CommandTag.mk 1))
    (fun _ _ => Except.error undefinedTable)

/-- A retry helper for runs in which no retry arises: it begins a
transaction and runs the closure once; an error of the closure is rolled
back and returned as it is, and after a closure without error the outcome
of the commit is returned. -/
def singleAttempt : crdb_connector.ExecuteTx := fun conn f =>
  match conn.beginResult with
  | Except.error err => some err
  | Except.ok tx =>
    match f tx with
    | some err => some err
    | none => tx.commitResult

/-- The tenant of the CockroachDB test suite. -/
def crdbtest : TenantConfig :=
  TenantConfig.mk "crdbtest" "Test CockraochDB" "postgres://localhost:26257/defaultdb"

/-- The database that the CockroachDB connector returns for the test tenant. -/
def crdbtestDatabase : crdb_connector.CrdbDatabase :=
  crdb_connector.CrdbDatabase.mk (PgsqlDatabase.mk crdbtest okConn)

/-- A heap on which nothing has been allocated. -/
def emptyHeap : Heap := Heap.mk (fun _ => TenantConfig.mk "" "" "") 0

/-- The heap after `b := NewTenantConfigBuilder().WithTenantID("a")`. -/
def builtHeap : Heap :=
  (tenantConfigBuilder.WithTenantID (NewTenantConfigBuilder emptyHeap).2
    (NewTenantConfigBuilder emptyHeap).1 "a").2

/-- The config `cfg := b.Build()` handed out by that builder. -/
def builtConfig : Ptr := tenantConfigBuilder.Build (NewTenantConfigBuilder emptyHeap).1

/-- The heap after the later call `b.WithTenantID("b")` on the same builder. -/
def laterHeap : Heap :=
  (tenantConfigBuilder.WithTenantID builtHeap (NewTenantConfigBuilder emptyHeap).1 "b").2

/-- A provider whose first answer is `[X]` and whose later answers are
`[X, Y]`: a tenant is added between the two calls that `NewConnector` makes. -/
def growProvider : TenantProvider :=
  TenantProvider.mk none
    (fun n => if n < 1 then Except.ok [tenantX] else Except.ok [tenantX, tenantY]) 0

/-- The connector that `NewConnector` returns over `growProvider`. -/
def growConnector : PgsqlConnector :=
  PgsqlConnector.mk (TenantProvider.mk none growProvider.loadResults 2) [tenantX]
    (fillIndexMap 0 [tenantX, tenantY] IndexMap.make)

/-- A provider that answers `[pgtest]` twice and then fails. -/
def failingProvider : TenantProvider :=
  TenantProvider.mk none
    (fun n => if n < 2 then Except.ok [pgtest]
      else Except.error (GoError.other "tenant provider unreachable")) 0

/-- The connector that `NewConnector` returns over `failingProvider`. -/
def failingConnector : PgsqlConnector :=
  PgsqlConnector.mk (TenantProvider.mk none failingProvider.loadResults 2) [pgtest]
    (fillIndexMap 0 [pgtest] IndexMap.make)

end scenario

/-! ## Theorems -/

open pgsql_connector

/-! ### Helper lemmas -/

theorem fillIndexMap_append (pre rest : List TenantConfig) (idx : Nat) (m : IndexMap) :
    fillIndexMap idx (pre ++ rest) m
      = fillIndexMap (idx + pre.length) rest (fillIndexMap idx pre m) := by
  induction pre generalizing idx m with
  | nil => simp [fillIndexMap]
  | cons t pre ih =>
    show fillIndexMap (idx + 1) (pre ++ rest) (m.set t.TenantID idx) = _
    rw [ih, List.length_cons, fillIndexMap]
    have e : idx + 1 + pre.length = idx + (pre.length + 1) := by omega
    rw [e]

theorem fillIndexMap_of_not_mem (l : List TenantConfig) (idx : Nat) (m : IndexMap) (k : String)
    (h : ∀ t ∈ l, t.TenantID ≠ k) : fillIndexMap idx l m k = m k := by
  induction l generalizing idx m with
  | nil => rfl
  | cons t l ih =>
    simp only [fillIndexMap]
    rw [ih (idx + 1) _ (fun u hu => h u (List.mem_cons_of_mem _ hu))]
    have hne : k ≠ t.TenantID := fun e => h t (List.mem_cons_self _ _) e.symm
    simp [IndexMap.set, hne]

theorem fillIndexMap_last (pre post : List TenantConfig) (t : TenantConfig) (m : IndexMap)
    (h : ∀ u ∈ post, u.TenantID ≠ t.TenantID) :
    fillIndexMap 0 (pre ++ t :: post) m t.TenantID = some pre.length := by
  rw [fillIndexMap_append]
  simp only [fillIndexMap, Nat.zero_add]
  rw [fillIndexMap_of_not_mem post _ _ _ h]
  simp [IndexMap.set]

theorem getElem?_append_cons_length (pre post : List TenantConfig) (t : TenantConfig) :
    (pre ++ t :: post)[pre.length]? = some t := by
  induction pre with
  | nil => simp
  | cons u pre ih => simpa using ih

theorem NewConnector_fields (p : TenantProvider) (tenants : List TenantConfig)
    (c : PgsqlConnector) (hp : ∀ n, p.loadResults n = Except.ok tenants)
    (hc : NewConnector p = (some c, none)) :
    c.tenantsConfig = tenants ∧
      c.tenantsConfigIndexMap = fillIndexMap 0 tenants IndexMap.make := by
  unfold NewConnector at hc
  cases hcfg : p.Configure with
  | some err => simp [hcfg] at hc
  | none =>
    simp only [hcfg, TenantProvider.LoadTenants, hp, PgsqlConnector.Reload] at hc
    simp only [Prod.mk.injEq, Option.some.injEq, and_true] at hc
    subst hc
    exact ⟨rfl, rfl⟩

theorem Connect_of_index (drv : Driver) (c : PgsqlConnector) (tenantID : String) (idx : Nat)
    (t : TenantConfig) (hi : c.tenantsConfigIndexMap tenantID = some idx)
    (ht : c.tenantsConfig[idx]? = some t) :
    c.Connect drv tenantID =
      match c.connect drv t with
      | (trace, (_, some err)) => (trace, Panics.returns (none, some err))
      | (trace, (database, none)) => (trace, Panics.returns (database, none)) := by
  unfold PgsqlConnector.Connect
  rw [hi]
  simp only [ht]

theorem Connect_trace_of_index (drv : Driver) (c : PgsqlConnector) (tenantID : String)
    (idx : Nat) (t : TenantConfig) (hi : c.tenantsConfigIndexMap tenantID = some idx)
    (ht : c.tenantsConfig[idx]? = some t) :
    (c.Connect drv tenantID).1 = [Event.dial t.DatabaseURL] := by
  rw [Connect_of_index drv c tenantID idx t hi ht]
  unfold PgsqlConnector.connect
  cases h : drv.pgxConnect t.DatabaseURL <;> simp [h]

theorem Connect_ok_of_index (drv : Driver) (c : PgsqlConnector) (tenantID : String)
    (idx : Nat) (t : TenantConfig) (conn : PgxConn)
    (hi : c.tenantsConfigIndexMap tenantID = some idx)
    (ht : c.tenantsConfig[idx]? = some t)
    (hd : drv.pgxConnect t.DatabaseURL = Except.ok conn) :
    (c.Connect drv tenantID).2 = Panics.returns (some (PgsqlDatabase.mk t conn), none) := by
  rw [Connect_of_index drv c tenantID idx t hi ht]
  unfold PgsqlConnector.connect
  simp only [hd]

theorem ConvertError_pgError (fuel : Nat) (c : pgErrorConverter)
    (severity code message : String) :
    c.ConvertError (fuel + 1) (some (GoError.pgError severity code message))
      = some (EX.mk c.errCode (Detail.databaseError
          (DatabaseErrorDetail.mk (TenantErrorDetail.mk c.tenantID) code message))) := rfl

theorem ConvertError_not_recognised (c : pgErrorConverter) (err : Option GoError)
    (h : (pgErrorDetail c err).2 = false) (fuel : Nat) : c.ConvertError fuel err = none := by
  induction fuel with
  | zero => rfl
  | succ n ih =>
    unfold pgErrorConverter.ConvertError
    split
    · next detail heq => rw [heq] at h; cases h
    · exact ih

theorem ConvertError_other (c : pgErrorConverter) (text : String) (fuel : Nat) :
    c.ConvertError fuel (some (GoError.other text)) = none :=
  ConvertError_not_recognised c (some (GoError.other text)) rfl fuel

theorem Connect_dial_fails_of_index (drv : Driver) (c : PgsqlConnector) (tenantID : String)
    (idx : Nat) (t : TenantConfig) (e : GoError)
    (hi : c.tenantsConfigIndexMap tenantID = some idx)
    (ht : c.tenantsConfig[idx]? = some t)
    (hd : drv.pgxConnect t.DatabaseURL = Except.error e) :
    c.Connect drv tenantID =
      ([Event.dial t.DatabaseURL],
        Panics.returns (none, some (EX.mk ErrCodeConnectionFailed (Detail.databaseError
          (DatabaseErrorDetail.mk (TenantErrorDetail.mk t.TenantID) "" e.Error))))) := by
  rw [Connect_of_index drv c tenantID idx t hi ht]
  unfold PgsqlConnector.connect
  simp only [hd]
  rfl

theorem getLast?_getD_cons (a d : String) (l : List String) :
    ((a :: l).getLast?).getD d = (l.getLast?).getD a := by
  rw [List.getLast?_cons]
  rfl

theorem runCalls_cell (h : Heap) (b : Ptr) (calls : List BuilderCall) :
    (runCalls h b calls).cells b = TenantConfig.mk
      (((calls.filterMap BuilderCall.idArg).getLast?).getD (h.cells b).id)
      (((calls.filterMap BuilderCall.nameArg).getLast?).getD (h.cells b).name)
      (((calls.filterMap BuilderCall.urlArg).getLast?).getD (h.cells b).url) := by
  induction calls generalizing h with
  | nil => rfl
  | cons call rest ih =>
    rw [runCalls, ih]
    cases call <;>
      simp [BuilderCall.run, BuilderCall.idArg, BuilderCall.nameArg, BuilderCall.urlArg,
        tenantConfigBuilder.WithTenantID, tenantConfigBuilder.WithTenantName,
        tenantConfigBuilder.WithDatabaseURL, Heap.write, getLast?_getD_cons]

theorem NewTenantConfigBuilder_cell (h : Heap) :
    (NewTenantConfigBuilder h).2.cells (NewTenantConfigBuilder h).1 = TenantConfig.mk "" "" "" := by
  simp [NewTenantConfigBuilder]

theorem Connect_not_nil_nil (drv : Driver) (c : PgsqlConnector) (tenantID : String)
    (trace : List Event) :
    c.Connect drv tenantID ≠ (trace, Panics.returns (none, none)) := by
  unfold PgsqlConnector.Connect
  split
  · simp
  · split
    · simp
    · next t _ =>
      unfold PgsqlConnector.connect
      cases h : drv.pgxConnect t.DatabaseURL <;> simp [h]

theorem RunInTransaction_fn_pgError_generic (fuel : Nat) (p : PgsqlDatabase) (pgxTx : PgxTx)
    (fn : TransactionFN) (severity code message : String)
    (hb : p.conn.beginResult = Except.ok pgxTx)
    (hfn : fn (p.CreateTx pgxTx) = some (GoError.pgError severity code message))
    (hr : pgxTx.rollbackResult = none) :
    (p.RunInTransaction (fuel + 1) fn).2 =
      some (some (EX.mk ErrCodeCannotCommitTx (Detail.databaseError
        (DatabaseErrorDetail.mk (TenantErrorDetail.mk p.TenantConfig.TenantID)
          code message)))) := by
  unfold PgsqlDatabase.RunInTransaction
  simp only [hb, hfn]
  unfold PgsqlTransaction.CommitOrRollback
  simp only [Option.isSome_some, if_true, NewCannotCommitTxErrorConverter,
    BuildErrorConverterChain, newPGErrorConverter, ErrorConverterChain.ConvertError,
    ConvertError_pgError, PgsqlDatabase.CreateTx, hr]

theorem fillIndexMapStates_getElem? (l : List TenantConfig) (idx : Nat) (m : IndexMap)
    (k : Nat) (hk : k < l.length) :
    (fillIndexMapStates idx l m)[k]? = some (fillIndexMap idx (l.take (k + 1)) m) := by
  induction l generalizing idx m k with
  | nil => simp at hk
  | cons t l ih =>
    cases k with
    | zero => simp [fillIndexMapStates, fillIndexMap]
    | succ k =>
      have hk2 : k < l.length := by simpa using hk
      simp only [fillIndexMapStates, List.getElem?_cons_succ, List.take_succ_cons, fillIndexMap]
      exact ih (idx + 1) _ k hk2

theorem indexStates_getElem? (l : List TenantConfig) (k : Nat) (hk : k ≤ l.length) :
    (IndexMap.make :: fillIndexMapStates 0 l IndexMap.make)[k]?
      = some (fillIndexMap 0 (l.take k) IndexMap.make) := by
  cases k with
  | zero => simp [fillIndexMap]
  | succ k =>
    rw [List.getElem?_cons_succ]
    exact fillIndexMapStates_getElem? l 0 IndexMap.make k (by omega)

theorem fillIndexMapStates_length (l : List TenantConfig) (idx : Nat) (m : IndexMap) :
    (fillIndexMapStates idx l m).length = l.length := by
  induction l generalizing idx m with
  | nil => rfl
  | cons t l ih => simp [fillIndexMapStates, ih]

theorem indexStates_getLast? (l : List TenantConfig) :
    (IndexMap.make :: fillIndexMapStates 0 l IndexMap.make).getLast?
      = some (fillIndexMap 0 l IndexMap.make) := by
  rw [List.getLast?_eq_getElem?]
  have h := indexStates_getElem? l l.length (Nat.le_refl _)
  simpa [fillIndexMapStates_length] using h

theorem Connect_of_absent (drv : Driver) (c : PgsqlConnector) (tenantID : String)
    (h : c.tenantsConfigIndexMap tenantID = none) :
    c.Connect drv tenantID =
      ([], Panics.returns (none,
        some (EX.mk ErrCodeTenantNotFound (Detail.tenantError (TenantErrorDetail.mk tenantID))))) := by
  unfold PgsqlConnector.Connect
  rw [h]
  rfl

theorem Connect_out_of_range (drv : Driver) (c : PgsqlConnector) (tenantID : String)
    (idx : Nat) (hi : c.tenantsConfigIndexMap tenantID = some idx)
    (ht : c.tenantsConfig[idx]? = none) :
    c.Connect drv tenantID = ([], Panics.panics "index out of range") := by
  unfold PgsqlConnector.Connect
  rw [hi]
  simp only [ht]

theorem registered_shapes :
    registeredShape ErrCodeTenantNotFound = some DetailShape.TenantErrorDetail ∧
    registeredShape ErrCodeNotSupported = some DetailShape.TenantErrorDetail ∧
    registeredShape ErrCodeConnectionFailed = some DetailShape.DatabaseErrorDetail ∧
    registeredShape ErrCodeCannotBeginTx = some DetailShape.DatabaseErrorDetail ∧
    registeredShape ErrCodeCannotCommitTx = some DetailShape.DatabaseErrorDetail ∧
    registeredShape ErrCodeCloseFailed = some DetailShape.DatabaseErrorDetail ∧
    registeredShape ErrCodeGenericDBError = some DetailShape.DatabaseErrorDetail ∧
    registeredShape ErrCodeQueryFailed = some DetailShape.QueryErrorDetail ∧
    registeredShape ErrCodeCannotRollbackTx = some DetailShape.RollbackErrorDetail := by
  decide

theorem ConvertError_eq_some (c : pgErrorConverter) (err : Option GoError) (fuel : Nat)
    (e : EX) (h : c.ConvertError fuel err = some e) :
    ∃ d : DatabaseErrorDetail, e = EX.mk c.errCode (Detail.databaseError d) := by
  induction fuel with
  | zero => cases h
  | succ n ih =>
    unfold pgErrorConverter.ConvertError at h
    split at h
    · next detail _ =>
      exact ⟨detail, (Option.some.inj h).symm⟩
    · exact ih h

theorem registered_of_database (code : String) (d : DatabaseErrorDetail)
    (h : registeredShape code = some DetailShape.DatabaseErrorDetail) :
    (EX.mk code (Detail.databaseError d)).AllRegistered :=
  ⟨h, trivial⟩

theorem chain_commit_registered (tenantID : String) (fuel : Nat) (err : Option GoError)
    (e : EX) (h : (NewCannotCommitTxErrorConverter tenantID).ConvertError fuel err = some e) :
    e.AllRegistered := by
  obtain ⟨d, rfl⟩ := ConvertError_eq_some _ err fuel e h
  exact registered_of_database _ d registered_shapes.2.2.2.2.1

theorem chain_generic_registered (tenantID : String) (fuel : Nat) (err : Option GoError)
    (e : EX) (h : (NewGenericDbErrorConverter tenantID).ConvertError fuel err = some e) :
    e.AllRegistered := by
  obtain ⟨d, rfl⟩ := ConvertError_eq_some _ err fuel e h
  exact registered_of_database _ d registered_shapes.2.2.2.2.2.2.1

theorem CommitOrRollback_registered (fuel : Nat) (p : PgsqlTransaction) (err : Option GoError)
    (e : EX) (h : (p.CommitOrRollback fuel err).2 = some (some e)) : e.AllRegistered := by
  unfold PgsqlTransaction.CommitOrRollback at h
  cases err with
  | none => simp at h
  | some native =>
    simp only [Option.isSome_some, if_true] at h
    cases h1 : (NewCannotCommitTxErrorConverter p.database.TenantConfig.TenantID).ConvertError
        fuel (some native) with
    | none => simp [h1] at h
    | some errEX =>
      have r1 := chain_commit_registered _ fuel _ errEX h1
      cases hrb : p.tx.rollbackResult with
      | none =>
        simp only [h1, hrb, Option.some.injEq] at h
        subst h
        exact r1
      | some errRollback =>
        cases h2 : (NewCannotCommitTxErrorConverter
            p.database.TenantConfig.TenantID).ConvertError fuel (some errRollback) with
        | none => simp [h1, hrb, h2] at h
        | some converted =>
          have r2 := chain_commit_registered _ fuel _ converted h2
          simp only [h1, hrb, h2, Option.some.injEq] at h
          subst h
          exact ⟨registered_shapes.2.2.2.2.2.2.2.2, r2.1, r1.1⟩

theorem Connect_registered (drv : Driver) (c : PgsqlConnector) (tenantID : String)
    (db : Option PgsqlDatabase) (e : EX)
    (h : (c.Connect drv tenantID).2 = Panics.returns (db, some e)) : e.AllRegistered := by
  cases hi : c.tenantsConfigIndexMap tenantID with
  | none =>
    rw [Connect_of_absent drv c tenantID hi] at h
    simp only [Panics.returns.injEq, Prod.mk.injEq, Option.some.injEq] at h
    obtain ⟨_, rfl⟩ := h
    exact ⟨registered_shapes.1, trivial⟩
  | some idx =>
    cases ht : c.tenantsConfig[idx]? with
    | none =>
      rw [Connect_out_of_range drv c tenantID idx hi ht] at h
      cases h
    | some t =>
      cases hd : drv.pgxConnect t.DatabaseURL with
      | error native =>
        rw [Connect_dial_fails_of_index drv c tenantID idx t native hi ht hd] at h
        simp only [Panics.returns.injEq, Prod.mk.injEq, Option.some.injEq] at h
        obtain ⟨_, rfl⟩ := h
        exact ⟨registered_shapes.2.2.1, trivial⟩
      | ok conn =>
        rw [Connect_ok_of_index drv c tenantID idx t conn hi ht hd] at h
        simp at h

/-- C1: for every connector state and every tenant id that is not a key of
the tenant index, Connect returns no Database and the coded error
TenantNotFound whose detail is the TenantErrorDetail of that id, and the
driver is never dialled (the trace of driver calls is empty). -/
theorem Connect_unknown_tenant (drv : Driver) (c : PgsqlConnector) (tenantID : String)
    (h : c.tenantsConfigIndexMap tenantID = none) :
    c.Connect drv tenantID =
      ([], Panics.returns (none,
        some (EX.mk ErrCodeTenantNotFound (Detail.tenantError (TenantErrorDetail.mk tenantID))))) := by
  unfold PgsqlConnector.Connect
  rw [h]
  rfl

/-- Witness of C1: on the connector built over the single test tenant, the
id `nonexistent` is not a key of the index, and Connect fails with
TenantNotFound without any driver call. -/
theorem Connect_unknown_tenant_witness :
    scenario.pgtestConnector.tenantsConfigIndexMap "nonexistent" = none ∧
    scenario.pgtestConnector.Connect scenario.okDriver "nonexistent" =
      ([], Panics.returns (none,
        some (EX.mk ErrCodeTenantNotFound
          (Detail.tenantError (TenantErrorDetail.mk "nonexistent"))))) :=
  ⟨by decide, Connect_unknown_tenant scenario.okDriver scenario.pgtestConnector "nonexistent"
    (by decide)⟩

/-- C2 (as stated, refuted): a provider that always returns the sequence
`a, b, a` (the third entry has the id of the first and another endpoint).
NewConnector succeeds; the first and the second entry have distinct ids and
distinct endpoint URLs; yet Connect for the id of the first entry dials the
endpoint of the third entry, not the endpoint of the first. -/
theorem Connect_tenant_isolation_counterexample :
    ∃ c : PgsqlConnector,
      NewConnector (scenario.constantProvider
        [scenario.tenantA, scenario.tenantB, scenario.tenantA2]) = (some c, none) ∧
      scenario.tenantA.TenantID ≠ scenario.tenantB.TenantID ∧
      scenario.tenantA.DatabaseURL ≠ scenario.tenantB.DatabaseURL ∧
      (c.Connect scenario.okDriver scenario.tenantA.TenantID).1
        = [Event.dial "postgres://host-3/a"] ∧
      (c.Connect scenario.okDriver scenario.tenantA.TenantID).1
        ≠ [Event.dial scenario.tenantA.DatabaseURL] :=
  ⟨_, rfl, by decide, by decide, by decide, by decide⟩

/-- C2 (amended): for a connector built by NewConnector over a provider that
returns the same sequence on every LoadTenants call, and entries A and B of
that sequence with distinct ids and distinct endpoint URLs, each being the
last entry of the sequence that carries its id: Connect(A) dials exactly
the endpoint URL of A, Connect(B) dials exactly the endpoint URL of B, the
two dials differ, and when the dial succeeds the returned Database holds the
config of the requested tenant, so its tenant id is the requested one and
not the other one. -/
theorem Connect_tenant_isolation (drv : Driver) (p : TenantProvider)
    (tenants : List TenantConfig) (c : PgsqlConnector) (A B : TenantConfig)
    (preA postA preB postB : List TenantConfig)
    (hp : ∀ n, p.loadResults n = Except.ok tenants)
    (hc : NewConnector p = (some c, none))
    (hA : tenants = preA ++ A :: postA) (hAlast : ∀ t ∈ postA, t.TenantID ≠ A.TenantID)
    (hB : tenants = preB ++ B :: postB) (hBlast : ∀ t ∈ postB, t.TenantID ≠ B.TenantID)
    (hid : A.TenantID ≠ B.TenantID) (hurl : A.DatabaseURL ≠ B.DatabaseURL) :
    (c.Connect drv A.TenantID).1 = [Event.dial A.DatabaseURL] ∧
    (c.Connect drv B.TenantID).1 = [Event.dial B.DatabaseURL] ∧
    (c.Connect drv A.TenantID).1 ≠ (c.Connect drv B.TenantID).1 ∧
    (∀ conn, drv.pgxConnect A.DatabaseURL = Except.ok conn →
      ∃ db : PgsqlDatabase, (c.Connect drv A.TenantID).2 = Panics.returns (some db, none) ∧
        db.TenantConfig = A ∧ db.TenantConfig.TenantID ≠ B.TenantID) ∧
    (∀ conn, drv.pgxConnect B.DatabaseURL = Except.ok conn →
      ∃ db : PgsqlDatabase, (c.Connect drv B.TenantID).2 = Panics.returns (some db, none) ∧
        db.TenantConfig = B ∧ db.TenantConfig.TenantID ≠ A.TenantID) := by
  obtain ⟨hcfg, hidx⟩ := NewConnector_fields p tenants c hp hc
  have iA : c.tenantsConfigIndexMap A.TenantID = some preA.length := by
    rw [hidx, hA]; exact fillIndexMap_last preA postA A _ hAlast
  have iB : c.tenantsConfigIndexMap B.TenantID = some preB.length := by
    rw [hidx, hB]; exact fillIndexMap_last preB postB B _ hBlast
  have gA : c.tenantsConfig[preA.length]? = some A := by
    rw [hcfg, hA]; exact getElem?_append_cons_length preA postA A
  have gB : c.tenantsConfig[preB.length]? = some B := by
    rw [hcfg, hB]; exact getElem?_append_cons_length preB postB B
  have tA := Connect_trace_of_index drv c A.TenantID preA.length A iA gA
  have tB := Connect_trace_of_index drv c B.TenantID preB.length B iB gB
  refine ⟨tA, tB, ?_, ?_, ?_⟩
  · rw [tA, tB]
    intro h
    exact hurl (by simpa using h)
  · intro conn hd
    exact ⟨PgsqlDatabase.mk A conn,
      Connect_ok_of_index drv c A.TenantID preA.length A conn iA gA hd, rfl, hid⟩
  · intro conn hd
    exact ⟨PgsqlDatabase.mk B conn,
      Connect_ok_of_index drv c B.TenantID preB.length B conn iB gB hd, rfl, Ne.symm hid⟩

/-- Witness of C2 (amended): the provider always returns the tenants `a`
and `b`; the hypotheses hold and the theorem applies. -/
theorem Connect_tenant_isolation_witness :
    NewConnector (scenario.constantProvider [scenario.tenantA, scenario.tenantB])
      = (some scenario.abConnector, none) ∧
    (scenario.abConnector.Connect scenario.okDriver "a").1
      = [Event.dial "postgres://host-1/a"] ∧
    (scenario.abConnector.Connect scenario.okDriver "b").1
      = [Event.dial "postgres://host-2/b"] :=
  have h := Connect_tenant_isolation scenario.okDriver
    (scenario.constantProvider [scenario.tenantA, scenario.tenantB])
    [scenario.tenantA, scenario.tenantB] scenario.abConnector scenario.tenantA scenario.tenantB
    [] [scenario.tenantB] [scenario.tenantA] []
    (fun _ => rfl) rfl rfl (by decide) rfl (by decide) (by decide) (by decide)
  ⟨rfl, h.1, h.2.1⟩

/-- C3 (the code at the failing input): the provider snapshot is `[X]` while
NewConnector runs and `[Y]` afterwards. NewConnector and the following
Reload both succeed. After the Reload, Connect for X fails with
TenantNotFound, but Connect for Y reads position 0 of the tenant list that
Reload did not replace: it dials the endpoint of X and returns a Database
bound to tenant X. -/
theorem Reload_keeps_stale_tenantsConfig :
    NewConnector scenario.swapProvider = (some scenario.swapConnector, none) ∧
    scenario.swapConnector.Reload = (scenario.swapConnectorReloaded, none) ∧
    scenario.swapConnectorReloaded.Connect scenario.okDriver "X" =
      ([], Panics.returns (none,
        some (EX.mk ErrCodeTenantNotFound (Detail.tenantError (TenantErrorDetail.mk "X"))))) ∧
    scenario.swapConnectorReloaded.Connect scenario.okDriver "Y" =
      ([Event.dial "postgres://host-x/x"],
        Panics.returns (some (PgsqlDatabase.mk scenario.tenantX scenario.okConn), none)) := by
  refine ⟨rfl, rfl, ?_, ?_⟩
  · unfold PgsqlConnector.Connect
    rw [show scenario.swapConnectorReloaded.tenantsConfigIndexMap "X" = none by decide]
    rfl
  · rw [Connect_of_index scenario.okDriver scenario.swapConnectorReloaded "Y" 0 scenario.tenantX
      (by decide) rfl]
    rfl

/-- C4 (the code at the failing input): the transaction function returns
nil and the native commit fails with the structured database error 40001.
For every fuel, RunInTransaction begins, calls the function, commits, and
returns nil: the commit error is dropped. -/
theorem RunInTransaction_drops_commit_error (fuel : Nat) :
    scenario.commitFailsTx.commitResult = some (GoError.pgError "ERROR" "40001"
      "could not serialize access") ∧
    scenario.commitFailsDatabase.RunInTransaction fuel scenario.fnOk
      = ([Event.begin, Event.callFn, Event.commit], some none) :=
  ⟨rfl, rfl⟩

/-- C5: when begin succeeds, the transaction function returns a structured
database error with native code `code` and message `message`, and the
rollback succeeds, RunInTransaction returns (with any positive fuel) the
coded error CannotCommitTx whose detail is the DatabaseErrorDetail with the
tenant id of the database, DatabaseErrorCode = code and DatabaseError =
message; the driver saw begin, then the function ran, then rollback. -/
theorem RunInTransaction_fn_pgError (fuel : Nat) (p : PgsqlDatabase) (pgxTx : PgxTx)
    (fn : TransactionFN) (severity code message : String)
    (hb : p.conn.beginResult = Except.ok pgxTx)
    (hfn : fn (p.CreateTx pgxTx) = some (GoError.pgError severity code message))
    (hr : pgxTx.rollbackResult = none) :
    p.RunInTransaction (fuel + 1) fn =
      ([Event.begin, Event.callFn, Event.rollback],
        some (some (EX.mk ErrCodeCannotCommitTx (Detail.databaseError
          (DatabaseErrorDetail.mk (TenantErrorDetail.mk p.TenantConfig.TenantID)
            code message))))) := by
  unfold PgsqlDatabase.RunInTransaction
  simp only [hb, hfn]
  unfold PgsqlTransaction.CommitOrRollback
  simp only [Option.isSome_some, if_true, NewCannotCommitTxErrorConverter,
    BuildErrorConverterChain, newPGErrorConverter, ErrorConverterChain.ConvertError,
    ConvertError_pgError, PgsqlDatabase.CreateTx, hr]

/-- Witness of C5: the failed transaction of the test suite, an insert into
a missing table, yields CannotCommitTx with DatabaseErrorCode 42P01. -/
theorem RunInTransaction_fn_pgError_witness :
    scenario.pgtestDatabase.RunInTransaction 1 scenario.fnUndefinedTable =
      ([Event.begin, Event.callFn, Event.rollback],
        some (some (EX.mk ErrCodeCannotCommitTx (Detail.databaseError
          (DatabaseErrorDetail.mk (TenantErrorDetail.mk "pgtest")
            "42P01" "relation error_table does not exist"))))) :=
  RunInTransaction_fn_pgError 0 scenario.pgtestDatabase scenario.okTx scenario.fnUndefinedTable
    "ERROR" "42P01" "relation error_table does not exist" rfl rfl rfl

/-- C6 (the code at the failing input): the transaction function failed with
a structured database error and the native rollback fails with
`tx is closed`, which is not a structured database error. For every fuel
CommitOrRollback returns nothing, and with any positive fuel the rollback
has been invoked by then: the conversion of the rollback error calls
itself without end, so no CannotRollbackTx error is produced. -/
theorem CommitOrRollback_rollback_error_never_returns (fuel : Nat) :
    ((scenario.pgtestDatabase.CreateTx scenario.rollbackFailsTx).CommitOrRollback fuel
        (some scenario.undefinedTable)).2 = none ∧
    (scenario.pgtestDatabase.CreateTx scenario.rollbackFailsTx).CommitOrRollback (fuel + 1)
        (some scenario.undefinedTable)
      = ([Event.rollback], none) := by
  have h : ∀ n : Nat,
      (scenario.pgtestDatabase.CreateTx scenario.rollbackFailsTx).CommitOrRollback (n + 1)
        (some scenario.undefinedTable) = ([Event.rollback], none) := by
    intro n
    unfold PgsqlTransaction.CommitOrRollback
    simp only [Option.isSome_some, if_true, NewCannotCommitTxErrorConverter,
      BuildErrorConverterChain, newPGErrorConverter, ErrorConverterChain.ConvertError,
      scenario.undefinedTable, ConvertError_pgError, PgsqlDatabase.CreateTx,
      scenario.rollbackFailsTx, ConvertError_other]
  refine ⟨?_, h fuel⟩
  cases fuel with
  | zero => rfl
  | succ n => rw [h n]

/-- C7 (the code at the failing input): begin succeeds and the transaction
function returns an error that is not a structured database error. For
every fuel, RunInTransaction invokes neither commit nor rollback and
returns nothing: the conversion of the function error, which precedes the
rollback, calls itself without end. -/
theorem RunInTransaction_plain_error_neither (fuel : Nat) :
    scenario.pgtestDatabase.RunInTransaction fuel scenario.fnPlainError
      = ([Event.begin, Event.callFn], none) := by
  unfold PgsqlDatabase.RunInTransaction
  simp only [scenario.pgtestDatabase, scenario.okConn, scenario.fnPlainError]
  unfold PgsqlTransaction.CommitOrRollback
  simp only [Option.isSome_some, if_true, NewCannotCommitTxErrorConverter,
    BuildErrorConverterChain, newPGErrorConverter, ErrorConverterChain.ConvertError,
    ConvertError_other]

/-- C8: when the native begin fails with error `e`, RunInTransaction returns
(for every fuel and every transaction function) the coded error
CannotBeginTx whose DatabaseErrorDetail has the tenant id of the database
and DatabaseError = e.Error(); the only driver call is begin: the
function is not invoked and neither commit nor rollback is attempted. -/
theorem RunInTransaction_begin_fails (fuel : Nat) (p : PgsqlDatabase) (fn : TransactionFN)
    (e : GoError) (hb : p.conn.beginResult = Except.error e) :
    p.RunInTransaction fuel fn =
      ([Event.begin],
        some (some (EX.mk ErrCodeCannotBeginTx (Detail.databaseError
          (DatabaseErrorDetail.mk (TenantErrorDetail.mk p.TenantConfig.TenantID)
            "" e.Error))))) := by
  unfold PgsqlDatabase.RunInTransaction
  simp only [hb]
  rfl

/-- Witness of C8: begin fails with `conn closed` on a database of the test
tenant. -/
theorem RunInTransaction_begin_fails_witness :
    scenario.beginFailsDatabase.conn.beginResult = Except.error (GoError.other "conn closed") ∧
    scenario.beginFailsDatabase.RunInTransaction 0 scenario.fnOk =
      ([Event.begin],
        some (some (EX.mk ErrCodeCannotBeginTx (Detail.databaseError
          (DatabaseErrorDetail.mk (TenantErrorDetail.mk "pgtest") "" "conn closed"))))) :=
  ⟨rfl, RunInTransaction_begin_fails 0 scenario.beginFailsDatabase scenario.fnOk
    (GoError.other "conn closed") rfl⟩

/-- C9 (the code at the failing input): a successful Exec of a single-row
insert returns a Result whose `database` field is nil, and LastInsertId on
that Result panics with a nil pointer dereference instead of returning the
NotSupported error. -/
theorem Exec_result_LastInsertId_panics :
    ∃ r : PgsqlResult,
      (scenario.pgtestDatabase.CreateTx scenario.okTx).Exec
          "insert into test_table (id, name) values ($1, $2)" [Arg.int 1, Arg.text "test 1"]
        = ([Event.exec "insert into test_table (id, name) values ($1, $2)"
              [Arg.int 1, Arg.text "test 1"]], (some r, none)) ∧
      r.RowsAffected = (1, none) ∧
      r.LastInsertId = Panics.panics "invalid memory address or nil pointer dereference" :=
  ⟨PgsqlResult.mk none (CommandTag.mk 1), rfl, rfl, rfl⟩

/-- C10: for every transaction, query and arguments, Exec makes one native
Exec call; when that call fails with `e`, Exec returns a nil Result and `e`
itself; when it succeeds with a command tag, Exec returns a nil error and a
Result whose RowsAffected() is the row count of the tag with a nil error. -/
theorem Exec_passes_native_result (p : PgsqlTransaction) (query : String) (args : List Arg) :
    (p.Exec query args).1 = [Event.exec query args] ∧
    match p.tx.execResult query args with
    | Except.error e => (p.Exec query args).2 = (none, some e)
    | Except.ok tag =>
      ∃ r : PgsqlResult, (p.Exec query args).2 = (some r, none) ∧
        r.RowsAffected = (tag.RowsAffected, none) := by
  unfold PgsqlTransaction.Exec
  cases h : p.tx.execResult query args with
  | error e => exact ⟨rfl, rfl⟩
  | ok tag => exact ⟨rfl, PgsqlResult.mk none tag, rfl, rfl⟩


/-- C11 (the code at the failing input): the provider snapshot is `[X]` while
NewConnector runs and `[Y]` at the following Reload, and the driver refuses
every dial. The id Y is a key of the index, yet Connect for Y dials the
endpoint of X and the ConnectionFailed error it returns carries the tenant
id X, not the requested id Y. -/
theorem Connect_dial_fails_stale_tenant :
    NewConnector scenario.swapProvider = (some scenario.swapConnector, none) ∧
    scenario.swapConnector.Reload = (scenario.swapConnectorReloaded, none) ∧
    scenario.swapConnectorReloaded.tenantsConfigIndexMap "Y" = some 0 ∧
    scenario.swapConnectorReloaded.Connect scenario.refusingDriver "Y" =
      ([Event.dial "postgres://host-x/x"],
        Panics.returns (none, some (EX.mk ErrCodeConnectionFailed (Detail.databaseError
          (DatabaseErrorDetail.mk (TenantErrorDetail.mk "X") ""
            "password authentication failed"))))) := by
  refine ⟨rfl, rfl, by decide, ?_⟩
  exact Connect_dial_fails_of_index scenario.refusingDriver scenario.swapConnectorReloaded "Y" 0
    scenario.tenantX (GoError.other "password authentication failed") (by decide) rfl rfl

/-- C12: for every sql text and argument list, when the native query of the
connection fails with `e`, `PgsqlDatabase.Query` returns nil Rows and the
coded error QueryFailed whose QueryErrorDetail has the tenant id of the
database, the sql text, the arguments and DatabaseError = e.Error(); when
the native query of a transaction handle fails with `e2`,
`PgsqlTransaction.Query` on a transaction of that database returns nil Rows
and a QueryFailed error of the same shape, with the tenant id of the owning
database. -/
theorem Query_fails_with_QueryFailed (p : PgsqlDatabase) (pgxTx : PgxTx) (query : String)
    (args : List Arg) (e e2 : GoError)
    (hd : p.conn.queryResult query args = Except.error e)
    (ht : pgxTx.queryResult query args = Except.error e2) :
    p.Query query args =
      ([Event.query query args],
        (none, some (EX.mk ErrCodeQueryFailed (Detail.queryError
          (QueryErrorDetail.mk
            (DatabaseErrorDetail.mk (TenantErrorDetail.mk p.TenantConfig.TenantID) "" e.Error)
            query args))))) ∧
    (p.CreateTx pgxTx).Query query args =
      ([Event.query query args],
        (none, some (EX.mk ErrCodeQueryFailed (Detail.queryError
          (QueryErrorDetail.mk
            (DatabaseErrorDetail.mk (TenantErrorDetail.mk p.TenantConfig.TenantID) "" e2.Error)
            query args))))) := by
  constructor
  · unfold PgsqlDatabase.Query
    simp only [hd]
    rfl
  · unfold PgsqlTransaction.Query
    simp only [PgsqlDatabase.CreateTx, ht]
    rfl

/-- Witness of C12: a select from a missing table, with one argument, on a
connection and on a transaction of the test tenant. -/
theorem Query_fails_with_QueryFailed_witness :
    (PgsqlDatabase.mk scenario.pgtest scenario.queryFailsConn).Query
        "select * from error_table where id = $1" [Arg.int 1] =
      ([Event.query "select * from error_table where id = $1" [Arg.int 1]],
        (none, some (EX.mk ErrCodeQueryFailed (Detail.queryError
          (QueryErrorDetail.mk
            (DatabaseErrorDetail.mk (TenantErrorDetail.mk "pgtest") ""
              "ERROR: relation error_table does not exist (SQLSTATE 42P01)")
            "select * from error_table where id = $1" [Arg.int 1]))))) :=
  (Query_fails_with_QueryFailed (PgsqlDatabase.mk scenario.pgtest scenario.queryFailsConn)
    scenario.queryFailsTx "select * from error_table where id = $1" [Arg.int 1]
    scenario.undefinedTable scenario.undefinedTable rfl rfl).1

/-- C13: for every converter built by newPGErrorConverter(code, tenantID)
and every structured database error with native code `c` and message `m`,
ConvertError returns (with any positive fuel) the coded error whose code is
the configured code and whose detail is the DatabaseErrorDetail with the
tenant id, DatabaseErrorCode = c and DatabaseError = m. -/
theorem newPGErrorConverter_converts_pgError (fuel : Nat) (code tenantID : String)
    (severity c m : String) :
    (newPGErrorConverter code tenantID).ConvertError (fuel + 1)
        (some (GoError.pgError severity c m))
      = some (EX.mk code (Detail.databaseError
          (DatabaseErrorDetail.mk (TenantErrorDetail.mk tenantID) c m))) := by
  rw [ConvertError_pgError]
  rfl

/-- C14 (the code at the failing input): the native error `conn closed` is
not a structured database error. For every fuel, neither the chain built by
NewCannotCommitTxErrorConverter nor the chain built by
NewGenericDbErrorConverter returns anything for it: ConvertError calls
itself without end, so the error is not passed through. -/
theorem ConvertError_chain_never_returns (fuel : Nat) :
    (NewCannotCommitTxErrorConverter "pgtest").ConvertError fuel
        (some (GoError.other "conn closed")) = none ∧
    (NewGenericDbErrorConverter "pgtest").ConvertError fuel
        (some (GoError.other "conn closed")) = none :=
  ⟨ConvertError_other _ _ fuel, ConvertError_other _ _ fuel⟩


/-- C15: for a fresh builder from NewTenantConfigBuilder (on any heap) and
any sequence of WithTenantID / WithTenantName / WithDatabaseURL calls, the
TenantConfig returned by Build has, field by field, the argument of the
last call that set the field, or the empty string when no call set it; so
two call sequences that make the same calls per field, however the calls of
different fields are interleaved, build the same config. -/
theorem Build_fields_of_last_calls (h : Heap) (calls : List BuilderCall) :
    ((runCalls (NewTenantConfigBuilder h).2 (NewTenantConfigBuilder h).1 calls).TenantID
        (tenantConfigBuilder.Build (NewTenantConfigBuilder h).1)
      = lastArg BuilderCall.idArg calls ∧
    (runCalls (NewTenantConfigBuilder h).2 (NewTenantConfigBuilder h).1 calls).TenantName
        (tenantConfigBuilder.Build (NewTenantConfigBuilder h).1)
      = lastArg BuilderCall.nameArg calls ∧
    (runCalls (NewTenantConfigBuilder h).2 (NewTenantConfigBuilder h).1 calls).DatabaseURL
        (tenantConfigBuilder.Build (NewTenantConfigBuilder h).1)
      = lastArg BuilderCall.urlArg calls) ∧
    ∀ calls2 : List BuilderCall,
      calls2.filterMap BuilderCall.idArg = calls.filterMap BuilderCall.idArg →
      calls2.filterMap BuilderCall.nameArg = calls.filterMap BuilderCall.nameArg →
      calls2.filterMap BuilderCall.urlArg = calls.filterMap BuilderCall.urlArg →
      (runCalls (NewTenantConfigBuilder h).2 (NewTenantConfigBuilder h).1 calls2).cells
          (tenantConfigBuilder.Build (NewTenantConfigBuilder h).1)
        = (runCalls (NewTenantConfigBuilder h).2 (NewTenantConfigBuilder h).1 calls).cells
          (tenantConfigBuilder.Build (NewTenantConfigBuilder h).1) := by
  refine ⟨⟨?_, ?_, ?_⟩, ?_⟩
  · simp only [Heap.TenantID, tenantConfigBuilder.Build, runCalls_cell,
      NewTenantConfigBuilder_cell, lastArg, TenantConfig.TenantID]
  · simp only [Heap.TenantName, tenantConfigBuilder.Build, runCalls_cell,
      NewTenantConfigBuilder_cell, lastArg, TenantConfig.TenantName]
  · simp only [Heap.DatabaseURL, tenantConfigBuilder.Build, runCalls_cell,
      NewTenantConfigBuilder_cell, lastArg, TenantConfig.DatabaseURL]
  · intro calls2 hid hname hurl
    simp only [tenantConfigBuilder.Build, runCalls_cell, hid, hname, hurl]

/-- Witness of C15: the url is set first and twice, the id last and the name
never; the built config has the id, the empty name and the second url, and
so has the config built with the id set between the two url calls. -/
theorem Build_fields_of_last_calls_witness :
    (runCalls (NewTenantConfigBuilder scenario.emptyHeap).2 0
        [BuilderCall.WithDatabaseURL "u1", BuilderCall.WithDatabaseURL "u2",
          BuilderCall.WithTenantID "a"]).cells 0 = TenantConfig.mk "a" "" "u2" ∧
    (runCalls (NewTenantConfigBuilder scenario.emptyHeap).2 0
        [BuilderCall.WithDatabaseURL "u1", BuilderCall.WithTenantID "a",
          BuilderCall.WithDatabaseURL "u2"]).cells 0
      = (runCalls (NewTenantConfigBuilder scenario.emptyHeap).2 0
        [BuilderCall.WithDatabaseURL "u1", BuilderCall.WithDatabaseURL "u2",
          BuilderCall.WithTenantID "a"]).cells 0 :=
  ⟨rfl, (Build_fields_of_last_calls scenario.emptyHeap
    [BuilderCall.WithDatabaseURL "u1", BuilderCall.WithDatabaseURL "u2",
      BuilderCall.WithTenantID "a"]).2
    [BuilderCall.WithDatabaseURL "u1", BuilderCall.WithTenantID "a",
      BuilderCall.WithDatabaseURL "u2"] rfl rfl rfl⟩

/-- C16 (the code at the failing input): a builder sets the id `a` and Build
hands out a config, whose TenantID() is `a`; a later WithTenantID(`b`) on
the same builder changes what TenantID() of that config returns to `b`. -/
theorem Build_config_follows_builder :
    scenario.builtHeap.TenantID scenario.builtConfig = "a" ∧
    scenario.laterHeap.TenantID scenario.builtConfig = "b" ∧
    scenario.laterHeap.TenantID scenario.builtConfig
      ≠ scenario.builtHeap.TenantID scenario.builtConfig := by
  refine ⟨rfl, rfl, ?_⟩
  decide

/-- C17: whenever begin succeeds, the transaction function fails with a
structured database error of native code `c`, and the retry helper gives up
with that error of the function (it is not retryable),
`CrdbDatabase.RunInTransaction` returns (with any positive fuel) the coded
error CannotCommitTx whose detail is the DatabaseErrorDetail with the
tenant id of the database, DatabaseErrorCode = c and the native message;
and when the rollback succeeds this is the very error that the generic
`PgsqlDatabase.RunInTransaction` returns for the function. -/
theorem CrdbRunInTransaction_nonretryable (fuel : Nat) (executeTx : crdb_connector.ExecuteTx)
    (d : crdb_connector.CrdbDatabase) (fn : TransactionFN) (pgxTx : PgxTx)
    (severity c m : String)
    (hb : d.PgxConn.beginResult = Except.ok pgxTx)
    (hfn : fn (d.CreateTx pgxTx) = some (GoError.pgError severity c m))
    (hgiveup : executeTx d.PgxConn (fun tx => fn (d.CreateTx tx)) = fn (d.CreateTx pgxTx)) :
    d.RunInTransaction (fuel + 1) executeTx fn =
      some (some (EX.mk ErrCodeCannotCommitTx (Detail.databaseError
        (DatabaseErrorDetail.mk (TenantErrorDetail.mk d.TenantConfig.TenantID) c m)))) ∧
    (pgxTx.rollbackResult = none →
      (d.toPgsqlDatabase.RunInTransaction (fuel + 1) fn).2
        = d.RunInTransaction (fuel + 1) executeTx fn) := by
  have hcrdb : d.RunInTransaction (fuel + 1) executeTx fn =
      some (some (EX.mk ErrCodeCannotCommitTx (Detail.databaseError
        (DatabaseErrorDetail.mk (TenantErrorDetail.mk d.TenantConfig.TenantID) c m)))) := by
    unfold crdb_connector.CrdbDatabase.RunInTransaction
    simp only [hgiveup, hfn, NewCannotCommitTxErrorConverter, BuildErrorConverterChain,
      newPGErrorConverter, ErrorConverterChain.ConvertError, ConvertError_pgError]
  refine ⟨hcrdb, ?_⟩
  intro hr
  rw [hcrdb, RunInTransaction_fn_pgError_generic fuel d.toPgsqlDatabase pgxTx fn severity c m
    hb hfn hr]

/-- Witness of C17: the failed transaction of the CockroachDB test suite, an
insert into a missing table, with a retry helper that makes one attempt. -/
theorem CrdbRunInTransaction_nonretryable_witness :
    scenario.crdbtestDatabase.RunInTransaction 1 scenario.singleAttempt
        scenario.fnUndefinedTable =
      some (some (EX.mk ErrCodeCannotCommitTx (Detail.databaseError
        (DatabaseErrorDetail.mk (TenantErrorDetail.mk "crdbtest") "42P01"
          "relation error_table does not exist")))) :=
  (CrdbRunInTransaction_nonretryable 0 scenario.singleAttempt scenario.crdbtestDatabase
    scenario.fnUndefinedTable scenario.okTx "ERROR" "42P01"
    "relation error_table does not exist" rfl rfl rfl).1

/-- Delegation of `CrdbConnector.Connect`, on every connector state and tenant
id: it makes the driver calls of the generic Connect and: when the generic
Connect returns an error, it returns a nil Database and that same error;
when the generic Connect returns a PgsqlDatabase, it returns the
CrdbDatabase that embeds that very PgsqlDatabase (config and connection);
the generic Connect never returns neither; and when the generic Connect
panics, it panics likewise. -/
theorem CrdbConnect_delegates (drv : Driver) (c : crdb_connector.CrdbConnector)
    (tenantID : String) :
    match c.toPgsqlConnector.Connect drv tenantID with
    | (trace, Panics.returns (_, some err)) =>
      c.Connect drv tenantID = (trace, Panics.returns (none, some err))
    | (trace, Panics.returns (some database, none)) =>
      c.Connect drv tenantID
        = (trace, Panics.returns (some (crdb_connector.CrdbDatabase.mk database), none))
    | (_, Panics.returns (none, none)) => False
    | (trace, Panics.panics reason) => c.Connect drv tenantID = (trace, Panics.panics reason) := by
  have hnn := Connect_not_nil_nil drv c.toPgsqlConnector tenantID
  unfold crdb_connector.CrdbConnector.Connect
  generalize c.toPgsqlConnector.Connect drv tenantID = r at hnn
  rcases r with ⟨trace, ⟨database, err⟩ | reason⟩
  · cases err with
    | some e => simp
    | none =>
      cases database with
      | none => exact hnn trace rfl
      | some db => simp
  · simp

/-- C19 (the code at the failing input): the provider answers `[X]` to the
first LoadTenants call and `[X, Y]` to the second. The CockroachDB
NewConnector succeeds and wraps the generic connector, whose index stores
position 1 for Y over a tenant list of length 1. Connect for Y on the
generic connector panics with an index out of range, and
`CrdbConnector.Connect` for Y panics likewise: it returns neither an error
nor a CrdbDatabase. -/
theorem CrdbConnect_panics_on_stale_index :
    crdb_connector.NewConnector scenario.growProvider
      = Panics.returns (some (crdb_connector.CrdbConnector.mk scenario.growConnector), none) ∧
    scenario.growConnector.Connect scenario.okDriver "Y"
      = ([], Panics.panics "index out of range") ∧
    (crdb_connector.CrdbConnector.mk scenario.growConnector).Connect scenario.okDriver "Y"
      = ([], Panics.panics "index out of range") := by
  have hgen : scenario.growConnector.Connect scenario.okDriver "Y"
      = ([], Panics.panics "index out of range") :=
    Connect_out_of_range scenario.okDriver scenario.growConnector "Y" 1 (by decide) rfl
  refine ⟨rfl, hgen, ?_⟩
  unfold crdb_connector.CrdbConnector.Connect
  rw [hgen]

/-- C20: for every database url and tenant id, and on every call (whatever
the heap the call starts from), LoadTenants of the provider returned by
NewSimpleConfigTenantProvider returns a nil error and a sequence of exactly
one TenantConfig, whose TenantID() is the tenant id, whose DatabaseURL() is
the url and whose TenantName() is `__Default`. -/
theorem simpleProvider_LoadTenants (url tenantID : String) (h : Heap) :
    ∃ t : Ptr,
      ((config.NewSimpleConfigTenantProvider url tenantID).LoadTenants h).1 = ([t], none) ∧
      ((config.NewSimpleConfigTenantProvider url tenantID).LoadTenants h).2.TenantID t
        = tenantID ∧
      ((config.NewSimpleConfigTenantProvider url tenantID).LoadTenants h).2.DatabaseURL t
        = url ∧
      ((config.NewSimpleConfigTenantProvider url tenantID).LoadTenants h).2.TenantName t
        = "__Default" := by
  refine ⟨h.next, rfl, ?_, ?_, ?_⟩ <;>
    simp [config.simpleConfigTenantProvider.LoadTenants, config.NewSimpleConfigTenantProvider,
      NewTenantConfigBuilder, tenantConfigBuilder.WithTenantID,
      tenantConfigBuilder.WithTenantName, tenantConfigBuilder.WithDatabaseURL,
      tenantConfigBuilder.Build, Heap.write, Heap.TenantID, Heap.DatabaseURL, Heap.TenantName,
      TenantConfig.TenantID, TenantConfig.DatabaseURL, TenantConfig.TenantName]


/-- C21 (as stated, refuted): the connector built over the tenants `a` and
`b` reloads the same snapshot. The tenant `a` is at position 0 in the index
before the Reload and in the index after it, but among the states that
Reload writes there is one in which the index has no entry for `a`, and on
that state Connect for `a` fails with TenantNotFound. -/
theorem Reload_exposes_partial_index :
    ∃ s ∈ scenario.abConnector.ReloadStates,
      scenario.abConnector.tenantsConfigIndexMap "a" = some 0 ∧
      (scenario.abConnector.Reload).1.tenantsConfigIndexMap "a" = some 0 ∧
      s.tenantsConfigIndexMap "a" = none ∧
      s.Connect scenario.okDriver "a" =
        ([], Panics.returns (none,
          some (EX.mk ErrCodeTenantNotFound (Detail.tenantError (TenantErrorDetail.mk "a"))))) :=
  ⟨PgsqlConnector.mk (TenantProvider.mk none (fun _ => Except.ok [scenario.tenantA,
      scenario.tenantB]) 3) [scenario.tenantA, scenario.tenantB] IndexMap.make,
    List.mem_cons_self _ _, by decide, by decide, rfl, rfl⟩

/-- C21 (amended): Reload does not replace the tenant index in one step. When
LoadTenants succeeds, the connector goes through as many states as the new
snapshot has entries, plus one: the index written at step `k` is the index
of the first `k` entries of the new snapshot (the empty map at step 0), and
only the last state carries the complete post-reload index; that last state
is the connector Reload returns with, so a Connect issued after Reload has
returned observes the complete post-reload index. -/
theorem Reload_writes_index_stepwise (c : PgsqlConnector) (tenants : List TenantConfig)
    (k : Nat)
    (hload : c.tenantProvider.loadResults c.tenantProvider.loadCalls = Except.ok tenants)
    (hk : k ≤ tenants.length) :
    c.ReloadStates.length = tenants.length + 1 ∧
    (c.ReloadStates.map (fun s => s.tenantsConfigIndexMap))[k]?
      = some (fillIndexMap 0 (tenants.take k) IndexMap.make) ∧
    c.ReloadStates.getLast? = some (c.Reload).1 ∧
    (c.Reload).1.tenantsConfigIndexMap = fillIndexMap 0 tenants IndexMap.make := by
  have hs : c.ReloadStates =
      (IndexMap.make :: fillIndexMapStates 0 tenants IndexMap.make).map
        (fun m => PgsqlConnector.mk
          (TenantProvider.mk c.tenantProvider.configureResult c.tenantProvider.loadResults
            (c.tenantProvider.loadCalls + 1)) c.tenantsConfig m) := by
    simp only [PgsqlConnector.ReloadStates, TenantProvider.LoadTenants, hload]
  have hr : c.Reload =
      (PgsqlConnector.mk
        (TenantProvider.mk c.tenantProvider.configureResult c.tenantProvider.loadResults
          (c.tenantProvider.loadCalls + 1)) c.tenantsConfig
        (fillIndexMap 0 tenants IndexMap.make), none) := by
    simp only [PgsqlConnector.Reload, TenantProvider.LoadTenants, hload]
  refine ⟨?_, ?_, ?_, ?_⟩
  · rw [hs, List.length_map, List.length_cons, fillIndexMapStates_length]
  · rw [hs, List.map_map]
    have hid : ((fun s : PgsqlConnector => s.tenantsConfigIndexMap) ∘
        (fun m => PgsqlConnector.mk
          (TenantProvider.mk c.tenantProvider.configureResult c.tenantProvider.loadResults
            (c.tenantProvider.loadCalls + 1)) c.tenantsConfig m)) = id := rfl
    rw [hid, List.map_id]
    exact indexStates_getElem? tenants k hk
  · rw [hs, hr, List.getLast?_map, indexStates_getLast?]
    rfl
  · rw [hr]

/-- Witness of C21 (amended): reloading the snapshot `a, b`, the index
written at step 1 knows `a` and not yet `b`. -/
theorem Reload_writes_index_stepwise_witness :
    scenario.abConnector.ReloadStates.length = 3 ∧
    (scenario.abConnector.ReloadStates.map (fun s => s.tenantsConfigIndexMap))[1]?
      = some (fillIndexMap 0 [scenario.tenantA] IndexMap.make) :=
  have h := Reload_writes_index_stepwise scenario.abConnector
    [scenario.tenantA, scenario.tenantB] 1 rfl (by decide)
  ⟨h.1, h.2.1⟩

/-- C23 (the code at the failing input): for every fuel, ConvertError of a
converter built by newPGErrorConverter returns nothing for the nil error
and nothing for the error `conn closed`, which is not a structured database
error: the call does not terminate. -/
theorem ConvertError_never_returns (fuel : Nat) :
    (newPGErrorConverter ErrCodeGenericDBError "pgtest").ConvertError fuel none = none ∧
    (newPGErrorConverter ErrCodeGenericDBError "pgtest").ConvertError fuel
        (some (GoError.other "conn closed")) = none :=
  ⟨ConvertError_not_recognised _ none rfl fuel, ConvertError_other _ _ fuel⟩

/-- C24 (the code at the failing input): the provider answers `[X]` to the
first LoadTenants call of NewConnector and `[X, Y]` to the second. The
connector NewConnector returns, before any further Reload, has an index
that stores position 1 for Y while its tenant list has length 1, and
Connect for Y panics with an index out of range. -/
theorem NewConnector_index_out_of_range :
    NewConnector scenario.growProvider = (some scenario.growConnector, none) ∧
    scenario.growConnector.tenantsConfigIndexMap "Y" = some 1 ∧
    scenario.growConnector.tenantsConfig.length = 1 ∧
    scenario.growConnector.Connect scenario.okDriver "Y"
      = ([], Panics.panics "index out of range") := by
  refine ⟨rfl, by decide, rfl, ?_⟩
  exact Connect_out_of_range scenario.okDriver scenario.growConnector "Y" 1 (by decide) rfl

/-- C25: whenever LoadTenants of the provider returns the error `e`, Reload
returns exactly `e` and leaves the tenant list and the tenant index of the
connector as they were, so Connect afterwards gives, for every driver and
tenant id, what it gave before. -/
theorem Reload_failure_keeps_state (c : PgsqlConnector) (e : GoError)
    (hload : c.tenantProvider.loadResults c.tenantProvider.loadCalls = Except.error e) :
    (c.Reload).2 = some e ∧
    (c.Reload).1.tenantsConfig = c.tenantsConfig ∧
    (c.Reload).1.tenantsConfigIndexMap = c.tenantsConfigIndexMap ∧
    ∀ (drv : Driver) (tenantID : String),
      (c.Reload).1.Connect drv tenantID = c.Connect drv tenantID := by
  have hr : c.Reload =
      (PgsqlConnector.mk
        (TenantProvider.mk c.tenantProvider.configureResult c.tenantProvider.loadResults
          (c.tenantProvider.loadCalls + 1)) c.tenantsConfig c.tenantsConfigIndexMap, some e) := by
    simp only [PgsqlConnector.Reload, TenantProvider.LoadTenants, hload]
  rw [hr]
  exact ⟨rfl, rfl, rfl, fun _ _ => rfl⟩

/-- Witness of C25: the provider fails on the call made by Reload; the test
tenant still resolves and dials its endpoint. -/
theorem Reload_failure_keeps_state_witness :
    (scenario.failingConnector.Reload).2
      = some (GoError.other "tenant provider unreachable") ∧
    (scenario.failingConnector.Reload).1.Connect scenario.okDriver "pgtest"
      = scenario.failingConnector.Connect scenario.okDriver "pgtest" :=
  have h := Reload_failure_keeps_state scenario.failingConnector
    (GoError.other "tenant provider unreachable") rfl
  ⟨h.1, h.2.2.2 scenario.okDriver "pgtest"⟩


/-- C22: the codes are registered with the detail shapes of the table
(TenantNotFound and NotSupported with TenantErrorDetail; ConnectionFailed,
CannotBeginTx, CannotCommitTx, CloseFailed and GenericDBError with
DatabaseErrorDetail; QueryFailed with QueryErrorDetail; CannotRollbackTx
with RollbackErrorDetail), and every coded error that an operation of the
pgsql connector returns (Connect, Close, both Query methods,
RunInTransaction, CommitOrRollback, LastInsertId, and the two converter
chains) carries a detail of the shape registered for its code, the two
errors inside a RollbackErrorDetail included. -/
theorem coded_errors_carry_registered_shape :
    (registeredShape ErrCodeTenantNotFound = some DetailShape.TenantErrorDetail ∧
      registeredShape ErrCodeNotSupported = some DetailShape.TenantErrorDetail ∧
      registeredShape ErrCodeConnectionFailed = some DetailShape.DatabaseErrorDetail ∧
      registeredShape ErrCodeCannotBeginTx = some DetailShape.DatabaseErrorDetail ∧
      registeredShape ErrCodeCannotCommitTx = some DetailShape.DatabaseErrorDetail ∧
      registeredShape ErrCodeCloseFailed = some DetailShape.DatabaseErrorDetail ∧
      registeredShape ErrCodeGenericDBError = some DetailShape.DatabaseErrorDetail ∧
      registeredShape ErrCodeQueryFailed = some DetailShape.QueryErrorDetail ∧
      registeredShape ErrCodeCannotRollbackTx = some DetailShape.RollbackErrorDetail) ∧
    (∀ (drv : Driver) (c : PgsqlConnector) (tenantID : String) (db : Option PgsqlDatabase)
        (e : EX),
      (c.Connect drv tenantID).2 = Panics.returns (db, some e) → e.AllRegistered) ∧
    (∀ (p : PgsqlDatabase) (e : EX), p.Close.2 = some e → e.AllRegistered) ∧
    (∀ (p : PgsqlDatabase) (query : String) (args : List Arg) (rows : Option pgsqlRows)
        (e : EX),
      (p.Query query args).2 = (rows, some e) → e.AllRegistered) ∧
    (∀ (p : PgsqlTransaction) (query : String) (args : List Arg) (rows : Option pgsqlRows)
        (e : EX),
      (p.Query query args).2 = (rows, some e) → e.AllRegistered) ∧
    (∀ (fuel : Nat) (p : PgsqlDatabase) (fn : TransactionFN) (e : EX),
      (p.RunInTransaction fuel fn).2 = some (some e) → e.AllRegistered) ∧
    (∀ (fuel : Nat) (p : PgsqlTransaction) (err : Option GoError) (e : EX),
      (p.CommitOrRollback fuel err).2 = some (some e) → e.AllRegistered) ∧
    (∀ (r : PgsqlResult) (n : Int) (e : EX),
      r.LastInsertId = Panics.returns (n, some e) → e.AllRegistered) ∧
    (∀ (tenantID : String) (fuel : Nat) (err : Option GoError) (e : EX),
      (NewCannotCommitTxErrorConverter tenantID).ConvertError fuel err = some e →
        e.AllRegistered) ∧
    (∀ (tenantID : String) (fuel : Nat) (err : Option GoError) (e : EX),
      (NewGenericDbErrorConverter tenantID).ConvertError fuel err = some e →
        e.AllRegistered) := by
  refine ⟨registered_shapes, Connect_registered, ?_, ?_, ?_, ?_, CommitOrRollback_registered, ?_,
    chain_commit_registered, chain_generic_registered⟩
  · intro p e h
    unfold PgsqlDatabase.Close at h
    cases hc : p.conn.closeResult with
    | none => simp [hc] at h
    | some native =>
      simp only [hc, Option.some.injEq] at h
      subst h
      exact ⟨registered_shapes.2.2.2.2.2.1, trivial⟩
  · intro p query args rows e h
    unfold PgsqlDatabase.Query at h
    cases hq : p.conn.queryResult query args with
    | error native =>
      simp only [hq, Prod.mk.injEq, Option.some.injEq] at h
      obtain ⟨_, rfl⟩ := h
      exact ⟨registered_shapes.2.2.2.2.2.2.2.1, trivial⟩
    | ok r => simp [hq] at h
  · intro p query args rows e h
    unfold PgsqlTransaction.Query at h
    cases hq : p.tx.queryResult query args with
    | error native =>
      simp only [hq, Prod.mk.injEq, Option.some.injEq] at h
      obtain ⟨_, rfl⟩ := h
      exact ⟨registered_shapes.2.2.2.2.2.2.2.1, trivial⟩
    | ok r => simp [hq] at h
  · intro fuel p fn e h
    unfold PgsqlDatabase.RunInTransaction at h
    cases hb : p.conn.beginResult with
    | error native =>
      simp only [hb, Option.some.injEq] at h
      subst h
      exact ⟨registered_shapes.2.2.2.1, trivial⟩
    | ok pgxTx =>
      simp only [hb] at h
      exact CommitOrRollback_registered fuel (p.CreateTx pgxTx) (fn (p.CreateTx pgxTx)) e h
  · intro r n e h
    unfold PgsqlResult.LastInsertId at h
    cases hdb : r.database with
    | none => simp [hdb] at h
    | some database =>
      simp only [hdb, Panics.returns.injEq, Prod.mk.injEq, Option.some.injEq] at h
      obtain ⟨_, rfl⟩ := h
      exact ⟨registered_shapes.2.1, trivial⟩

/-- Witness of C22: the TenantNotFound error that Connect returns for an
unknown tenant carries the registered shape. -/
theorem coded_errors_carry_registered_shape_witness :
    (EX.mk ErrCodeTenantNotFound
      (Detail.tenantError (TenantErrorDetail.mk "nonexistent"))).AllRegistered :=
  coded_errors_carry_registered_shape.2.1 scenario.okDriver scenario.pgtestConnector
    "nonexistent" none _ (by
      rw [Connect_of_absent scenario.okDriver scenario.pgtestConnector "nonexistent"
        (by decide)])

end dbconnector
